import Mathlib

/-!
Verification of the instruction-triggered multi-round tool-execution engine
(proactive agent) of this repository, as a shallow embedding in Lean 4.

The embedding follows the TypeScript source:
  - src/lib/proactive-agent.ts   (ProactiveAgent: processNewEmail and the
    notification helpers, the five-round tool loop)
  - the background poller module (BackgroundPoller.pollUserEmails)
  - the tools module used by ProactiveAgent (ToolService.getAvailableTools and
    ToolService.executeTool, the variant that takes refresh tokens and carries
    the self-contact guard), plus the legacy tools variant at
    src/lib/tools.ts whose create_contact case has no guard
  - the instruction executor module (InstructionExecutor.executeInstruction,
    the ten-round loop)
  - the capability adapters (GmailService, HubSpotService, CalendarService,
    RAGService), modelled as state transformers over an explicit system state
    that records store contents and a trace of adapter invocations.

Prisma tables become lists inside `SysState`; awaited calls become explicit
state passing; thrown exceptions become `ToolOutcome.err`; the reasoning
oracle (the LLM) is an arbitrary function from chat history to an assistant
message, universally quantified in the theorems.
-/

namespace App

/-- Trigger types of an ongoing instruction (prisma enum TriggerType). -/
inductive TriggerType where
  | NEW_EMAIL
  | NEW_CONTACT
  | NEW_CALENDAR_EVENT
  | EMAIL_RESPONSE
  | CALENDAR_RESPONSE
  | HUBSPOT_UPDATE
deriving DecidableEq, Repr

/-- Parse the trigger-type strings accepted by the save_ongoing_instruction
tool enum (tools module, save_ongoing_instruction parameter schema). -/
def TriggerType.ofString? (s : String) : Option TriggerType :=
  if s = "NEW_EMAIL" then some .NEW_EMAIL
  else if s = "NEW_CONTACT" then some .NEW_CONTACT
  else if s = "NEW_CALENDAR_EVENT" then some .NEW_CALENDAR_EVENT
  else if s = "EMAIL_RESPONSE" then some .EMAIL_RESPONSE
  else if s = "CALENDAR_RESPONSE" then some .CALENDAR_RESPONSE
  else if s = "HUBSPOT_UPDATE" then some .HUBSPOT_UPDATE
  else none

/-- Task statuses (prisma enum TaskStatus, also the update_task_status enum). -/
inductive TaskStatus where
  | PENDING
  | IN_PROGRESS
  | WAITING_FOR_RESPONSE
  | COMPLETED
  | FAILED
  | CANCELLED
deriving DecidableEq, Repr

/-- Parse the status strings of the update_task_status tool enum. -/
def TaskStatus.ofString? (s : String) : Option TaskStatus :=
  if s = "PENDING" then some .PENDING
  else if s = "IN_PROGRESS" then some .IN_PROGRESS
  else if s = "WAITING_FOR_RESPONSE" then some .WAITING_FOR_RESPONSE
  else if s = "COMPLETED" then some .COMPLETED
  else if s = "FAILED" then some .FAILED
  else if s = "CANCELLED" then some .CANCELLED
  else none

/-- OAuth account row (the accounts relation on User; only the fields the
source reads). JS truthiness of access_token is modelled by `Option` plus an
emptiness check where the source tests it. -/
structure Account where
  provider : String
  access_token : Option String
  refresh_token : Option String
deriving DecidableEq, Repr

/-- User row with the fields read by the agent code. -/
structure User where
  id : String
  email : String
  hubspotAccessToken : Option String
  accounts : List Account
deriving DecidableEq, Repr

/-- Ongoing (standing) instruction row. `createdAt` is an abstract timestamp. -/
structure OngoingInstruction where
  id : String
  userId : String
  instruction : String
  triggerType : TriggerType
  isActive : Bool
  createdAt : Nat
deriving DecidableEq, Repr

/-- Email row (prisma Email); `gmailId` is the provider-native id used as the
de-duplication key. `date` is an abstract timestamp. -/
structure StoredEmail where
  userId : String
  gmailId : String
  threadId : String
  subject : String
  sender : String
  recipient : String
  body : String
  date : Nat
  isRead : Bool
deriving DecidableEq, Repr

/-- Task row (prisma Task) with the fields the tools read and write. -/
structure TaskRec where
  id : String
  userId : String
  title : String
  description : String
  status : TaskStatus
  priority : String
  result : Option String
  error : Option String
  completedAt : Option Nat
deriving DecidableEq, Repr

/-- Notification row (prisma Notification). The opaque json metadata payload
is not modelled; the claims only concern which notifications exist. -/
structure Notification where
  userId : String
  ntype : String
  title : String
  message : String
  severity : String
deriving DecidableEq, Repr

/-- Contact held by the external HubSpot CRM (created through the HubSpot
adapter basicApi.create call). -/
structure HContact where
  hubspotId : String
  email : Option String
  firstName : Option String
  lastName : Option String
deriving DecidableEq, Repr

/-- Local Contact row (prisma Contact), written by HubSpotService.syncContact
after a successful CRM create. -/
structure LocalContact where
  userId : String
  hubspotId : String
  email : Option String
deriving DecidableEq, Repr

/-- Record of a message handed to the Gmail send API. `toAddr` embeds the
source field named to, which is a reserved word in Lean. -/
structure SentEmail where
  toAddr : Option String
  subject : Option String
  body : Option String
deriving DecidableEq, Repr

/-- Calendar event row (prisma CalendarEvent), written by
CalendarService.syncEvent after a successful insert. Times are kept as the
raw ISO strings the tool received. -/
structure CalEvent where
  userId : String
  googleId : String
  title : String
  startTime : Option String
  endTime : Option String
deriving DecidableEq, Repr

/-- Whole-system state: the relational store plus the externally visible
side effects, a trace of capability-adapter invocations, and a trace of
nested proactive-agent dispatches (syncEvent fires
triggerProactiveInstructions for every event it sees for the first time).
`now` is the abstract current timestamp. -/
structure SysState where
  now : Nat
  users : List User
  emails : List StoredEmail
  tasks : List TaskRec
  instructions : List OngoingInstruction
  notifications : List Notification
  hubspotContacts : List HContact
  contacts : List LocalContact
  sentEmails : List SentEmail
  calendarEvents : List CalEvent
  adapterCalls : List String
  agentDispatches : List String
deriving DecidableEq, Repr

/-- Google access token of a user, mirroring
`user.accounts.find(acc => acc.provider === 'google')` followed by the JS
truthiness test on `access_token` (an empty string is falsy). -/
def googleAccessToken (u : User) : Option String :=
  match u.accounts.find? (fun a => decide (a.provider = "google")) with
  | none => none
  | some acc =>
    match acc.access_token with
    | none => none
    | some t => if t = "" then none else some t

/-- Characters up to the first closing angle bracket, or none when there is
no closing bracket in the remainder. -/
def takeUntilGt : List Char → Option (List Char)
  | [] => none
  | c :: rest => if c = '>' then some [] else (takeUntilGt rest).map (c :: ·)

/-- Leftmost capture of a nonempty run of characters between an opening and a
closing angle bracket, following the regex in the source. -/
def findAngleCapture : List Char → Option (List Char)
  | [] => none
  | c :: rest =>
    if c = '<' then
      match takeUntilGt rest with
      | some cap => if cap.isEmpty then findAngleCapture rest else some cap
      | none => findAngleCapture rest
    else findAngleCapture rest

/-- Embeds `extractEmail` from ProactiveAgent.processNewEmail: the address
inside the first angle-bracket pair of a display string such as
Name <email at domain>, or the whole string when there is no such pair. -/
def extractEmail (s : String) : String :=
  match findAngleCapture s.data with
  | some cap => String.mk cap
  | none => s

/-- Character-wise lowercasing, modelling String.prototype.toLowerCase. -/
def lowerStr (s : String) : String :=
  String.mk (s.data.map Char.toLower)

example : extractEmail "Jane Roe <jane@x.com>" = "jane@x.com" := by rfl
example : extractEmail "jane@x.com" = "jane@x.com" := by rfl

/-- Parsed JSON argument value of a tool call. The source parses the oracle
supplied argument string with JSON.parse; only the shapes the tools read are
modelled: strings, numbers, string arrays and opaque objects. -/
inductive AVal where
  | s : String → AVal
  | n : Nat → AVal
  | arr : List String → AVal
  | obj : List (String × String) → AVal
deriving DecidableEq, Repr

/-- Arguments object of a tool call, as key and value pairs. A missing key
models the JS undefined that reading an absent property yields. -/
abbrev Args := List (String × AVal)

/-- String-valued argument, or none when absent or not a string. -/
def strArg (args : Args) (k : String) : Option String :=
  match args.lookup k with
  | some (AVal.s v) => some v
  | _ => none

/-- Array-valued argument, or none when absent. -/
def arrArg (args : Args) (k : String) : Option (List String) :=
  match args.lookup k with
  | some (AVal.arr v) => some v
  | _ => none

/-- Numeric argument with a JS falsy-or-default fallback: the source writes
arguments.limit || 5, so an absent key and the number zero both give the
default. -/
def natArgOr (args : Args) (k : String) (dflt : Nat) : Nat :=
  match args.lookup k with
  | some (AVal.n v) => if v = 0 then dflt else v
  | _ => dflt

/-- Result value returned by a tool execution (the any result in the source,
restricted to the shapes the modelled tools produce). -/
inductive RVal where
  | obj : List (String × String) → RVal
  | emailList : List StoredEmail → RVal
  | contactList : List LocalContact → RVal
  | eventList : List CalEvent → RVal
  | strList : List String → RVal
  | taskVal : TaskRec → RVal
  | instrVal : OngoingInstruction → RVal
  | instrList : List OngoingInstruction → RVal
deriving DecidableEq, Repr

/-- Outcome of one executeTool call: a returned value, or a thrown error
carried as its message string. -/
inductive ToolOutcome where
  | ok : RVal → ToolOutcome
  | err : String → ToolOutcome
deriving DecidableEq, Repr

def ToolOutcome.isOk : ToolOutcome → Bool
  | .ok _ => true
  | .err _ => false

/-- Declared schema of one catalog tool. The source lists a JSON schema per
tool; the claims concern the required field list, which is kept verbatim.
The property descriptions are prose for the oracle and are elided. -/
structure Tool where
  name : String
  required : List String
deriving DecidableEq, Repr

/-- Embeds ToolService.getAvailableTools of the tools module: the fixed tool
catalog with each tool required-parameter list. -/
def ToolService.getAvailableTools : List Tool :=
  [ ⟨"search_emails", ["query"]⟩,
    ⟨"get_recent_emails", []⟩,
    ⟨"search_contacts", ["query"]⟩,
    ⟨"search_contact_notes", ["query"]⟩,
    ⟨"send_email", ["to", "subject", "body"]⟩,
    ⟨"create_contact", ["email"]⟩,
    ⟨"add_contact_note", ["contactId", "note"]⟩,
    ⟨"create_calendar_event", ["title", "startTime", "endTime"]⟩,
    ⟨"find_available_time_slots", []⟩,
    ⟨"get_upcoming_events", []⟩,
    ⟨"search_calendar_events", ["startDate", "endDate"]⟩,
    ⟨"create_task", ["title", "description"]⟩,
    ⟨"update_task_status", ["taskId", "status"]⟩,
    ⟨"save_ongoing_instruction", ["instruction", "triggerType"]⟩,
    ⟨"list_ongoing_instructions", []⟩ ]

/-- Schema of the tool with the given catalog name, when it exists. -/
def toolSchema (n : String) : Option Tool :=
  ToolService.getAvailableTools.find? (fun t => decide (t.name = n))

/-- Arguments satisfy a tool schema when every required key is present.
This is what schema validation would check; the dispatch code performs no
such check, which claim C5 is about. -/
def schemaValidates (t : Tool) (args : Args) : Bool :=
  t.required.all (fun k => (args.lookup k).isSome)

/-! Capability adapters. Entering an adapter method is recorded on the
adapter trace; the store mutations mirror what the adapter methods persist.
The external provider calls themselves are modelled as succeeding, but
deterministic in-wrapper failures are kept: the calendar createEvent wrapper
throws on an Invalid Date before its provider insert. -/

/-- Records one capability-adapter invocation on the trace. -/
def recordAdapter (name : String) (s : SysState) : SysState :=
  { s with adapterCalls := s.adapterCalls ++ [name] }

/-- Embeds GmailService.sendEmail: builds and sends a message through the
Gmail API and reports success. No local Email row is written by a send. -/
def GmailService.sendEmail (toAddr subject body htmlBody : Option String)
    (s : SysState) : SysState × RVal :=
  let s1 := recordAdapter "gmail.sendEmail" s
  let body1 := match htmlBody with | some h => some h | none => body
  ({ s1 with sentEmails := s1.sentEmails ++ [⟨toAddr, subject, body1⟩] },
    RVal.obj [("success", "true")])

/-- Embeds GmailService.searchEmails: queries the Gmail API and returns the
matching synced rows. The provider-side matching is external; it is modelled
as returning the user rows up to the limit. -/
def GmailService.searchEmails (userId : String) (_query : String)
    (maxResults : Nat) (s : SysState) : SysState × RVal :=
  let s1 := recordAdapter "gmail.searchEmails" s
  (s1, RVal.emailList
    ((s1.emails.filter (fun e => decide (e.userId = userId))).take maxResults))

/-- Fresh HubSpot id for a created contact, standing for the id the CRM
returns. -/
def freshHubspotId (s : SysState) : String :=
  "hs-" ++ toString s.hubspotContacts.length

/-- Embeds HubSpotService.createContact: creates the contact in the CRM,
then syncs it into the local Contact table, and reports success with the
CRM id. -/
def HubSpotService.createContact (userId : String) (args : Args)
    (s : SysState) : SysState × RVal :=
  let s1 := recordAdapter "hubspot.createContact" s
  let hid := freshHubspotId s1
  let hc : HContact :=
    ⟨hid, strArg args "email", strArg args "firstName", strArg args "lastName"⟩
  let lc : LocalContact := ⟨userId, hid, strArg args "email"⟩
  ({ s1 with hubspotContacts := s1.hubspotContacts ++ [hc],
             contacts := s1.contacts ++ [lc] },
    RVal.obj [("success", "true"), ("contactId", hid)])

/-- Embeds HubSpotService.addContactNote: creates a note associated to the
given CRM contact id and reports success. -/
def HubSpotService.addContactNote (_contactId : Option String)
    (_note : Option String) (s : SysState) : SysState × RVal :=
  (recordAdapter "hubspot.addContactNote" s, RVal.obj [("success", "true")])

/-- Fresh Google event id for a created calendar event. -/
def freshGoogleId (s : SysState) : String :=
  "gcal-" ++ toString s.calendarEvents.length

/-- Decimal digit test on a character. -/
def isDigitChar (c : Char) : Bool :=
  decide ('0' ≤ c) && decide ('9' ≥ c)

/-- Structural check that a character list starts with an ISO 8601 calendar
date, YYYY-MM-DD. -/
def isIsoDatePrefix : List Char → Bool
  | y1 :: y2 :: y3 :: y4 :: '-' :: m1 :: m2 :: '-' :: d1 :: d2 :: _ =>
    isDigitChar y1 && isDigitChar y2 && isDigitChar y3 && isDigitChar y4 &&
      isDigitChar m1 && isDigitChar m2 && isDigitChar d1 && isDigitChar d2
  | _ => false

/-- Whether the JS Date the dispatch code builds from a tool argument is a
valid date. A missing argument gives new Date of undefined, an Invalid Date,
deterministically. For a present string, JS parsing accepts ISO 8601 date or
date-time strings - the format the tool schema mandates - modelled as the
strings with an ISO date prefix. -/
def jsDateValid : Option String → Bool
  | none => false
  | some str => isIsoDatePrefix str.data

/-- Embeds CalendarService.createEvent: on an Invalid Date the wrapper
throws a RangeError at toISOString, inside the adapter but before the
provider insert and with no row written; otherwise it inserts the event
through the Calendar API, syncs it into the local CalendarEvent table -
which, the event id being new, dispatches the calendar-event proactive agent
via triggerProactiveInstructions - and reports success. The dispatched
processNewCalendarEvent run is recorded on the dispatch trace rather than
re-entered: re-entering would recurse unboundedly exactly as the source can,
and its tool loop writes no notifications of its own. -/
def CalendarService.createEvent (userId : String) (title : Option String)
    (startTime endTime : Option String) (s : SysState) :
    SysState × ToolOutcome :=
  let s1 := recordAdapter "calendar.createEvent" s
  if jsDateValid startTime && jsDateValid endTime then
    let gid := freshGoogleId s1
    let ev : CalEvent := ⟨userId, gid, title.getD "", startTime, endTime⟩
    let s2 := { s1 with calendarEvents := s1.calendarEvents ++ [ev] }
    ({ s2 with agentDispatches :=
        s2.agentDispatches ++ ["processNewCalendarEvent:" ++ gid] },
      .ok (RVal.obj [("success", "true"), ("eventId", gid)]))
  else
    (s1, .err "RangeError: Invalid time value")

/-- Embeds CalendarService.findAvailableTimeSlots: a free-busy query against
the Calendar API; the slot arithmetic is provider data driven and the result
content is immaterial to every claim. -/
def CalendarService.findAvailableTimeSlots (s : SysState) : SysState × RVal :=
  (recordAdapter "calendar.freebusy" s, RVal.strList [])

/-- Embeds RAGService.searchEmails: the vector similarity search over synced
emails. The embedding subsystem is outside the specified core; it is
modelled as a pure read returning the user rows up to the limit. -/
def RAGService.searchEmails (userId : String) (_query : String) (limit : Nat)
    (s : SysState) : List StoredEmail :=
  (s.emails.filter (fun e => decide (e.userId = userId))).take limit

/-- Embeds RAGService.searchContacts, modelled like RAGService.searchEmails
over the local Contact table. -/
def RAGService.searchContacts (userId : String) (_query : String) (limit : Nat)
    (s : SysState) : List LocalContact :=
  (s.contacts.filter (fun c => decide (c.userId = userId))).take limit

/-- Milliseconds in a day, used by the get_recent_emails date window. -/
def dayMs : Nat := 24 * 60 * 60 * 1000

/-- Newer-or-equal ordering on instructions: the relation that holds from an
instruction to every one created at the same time or before it. -/
def createdNoEarlier (a b : OngoingInstruction) : Prop :=
  b.createdAt ≤ a.createdAt

instance : DecidableRel createdNoEarlier :=
  fun a b => inferInstanceAs (Decidable (b.createdAt ≤ a.createdAt))

/-- Sort instructions by creation timestamp descending, modelling the
orderBy createdAt desc clause of the list_ongoing_instructions query. -/
def sortByCreatedAtDesc (l : List OngoingInstruction) :
    List OngoingInstruction :=
  l.insertionSort createdNoEarlier

/-- Embeds ToolService.executeTool of the tools module used by the proactive
agent (the variant whose constructor also takes refresh tokens and whose
create_contact case carries the self-contact guard). The switch dispatches
on the tool name; a thrown JS error becomes `ToolOutcome.err`. -/
def ToolService.executeTool (userId : String) (s : SysState)
    (name : String) (args : Args) : SysState × ToolOutcome :=
  if name = "search_emails" then
    -- RAG search first, Gmail API fallback when it yields nothing.
    let ragResults :=
      RAGService.searchEmails userId (strArg args "query" |>.getD "")
        (natArgOr args "limit" 5) s
    if ragResults.length > 0 then (s, .ok (RVal.emailList ragResults))
    else
      let p :=
        GmailService.searchEmails userId (strArg args "query" |>.getD "")
          (natArgOr args "limit" 10) s
      (p.1, .ok p.2)
  else if name = "get_recent_emails" then
    let daysBack := natArgOr args "daysBack" 1
    let startDate := s.now - daysBack * dayMs
    let emails :=
      s.emails.filter
          (fun e => decide (e.userId = userId) && decide (startDate ≤ e.date))
        |>.take (natArgOr args "limit" 10)
    (s, .ok (RVal.emailList emails))
  else if name = "search_contacts" then
    (s, .ok (RVal.contactList
      (RAGService.searchContacts userId (strArg args "query" |>.getD "")
        (natArgOr args "limit" 5) s)))
  else if name = "search_contact_notes" then
    -- Vector search over contact notes; notes are not otherwise read by the
    -- claims, so the (read-only) result is the empty match list.
    (s, .ok (RVal.strList []))
  else if name = "send_email" then
    let p :=
      GmailService.sendEmail (strArg args "to") (strArg args "subject")
        (strArg args "body") (strArg args "htmlBody") s
    (p.1, .ok p.2)
  else if name = "create_contact" then
    -- Guard: no contact may be created for the acting user own address.
    let user := s.users.find? (fun u => decide (u.id = userId))
    match user with
    | some u =>
      if strArg args "email" = some u.email then
        (s, .ok (RVal.obj
          [("error", "Cannot create contact for yourself"),
           ("message", "This is your own email address. Contacts should only be created for other people.")]))
      else
        let p := HubSpotService.createContact userId args s
        (p.1, .ok p.2)
    | none =>
      let p := HubSpotService.createContact userId args s
      (p.1, .ok p.2)
  else if name = "add_contact_note" then
    let p :=
      HubSpotService.addContactNote (strArg args "contactId")
        (strArg args "note") s
    (p.1, .ok p.2)
  else if name = "create_calendar_event" then
    CalendarService.createEvent userId (strArg args "title")
      (strArg args "startTime") (strArg args "endTime") s
  else if name = "find_available_time_slots" then
    let p := CalendarService.findAvailableTimeSlots s
    (p.1, .ok p.2)
  else if name = "get_upcoming_events" then
    (s, .ok (RVal.eventList
      (s.calendarEvents.filter (fun e => decide (e.userId = userId))
        |>.take (natArgOr args "maxResults" 10))))
  else if name = "search_calendar_events" then
    let a := strArg args "startDate" |>.getD ""
    let b := strArg args "endDate" |>.getD ""
    (s, .ok (RVal.eventList
      (s.calendarEvents.filter (fun e =>
          decide (e.userId = userId) &&
          (match e.startTime with
           | some t => decide (a ≤ t) && decide (t ≤ b)
           | none => false))
        |>.take (natArgOr args "maxResults" 50))))
  else if name = "create_task" then
    let t : TaskRec :=
      { id := "task-" ++ toString s.tasks.length,
        userId := userId,
        title := strArg args "title" |>.getD "",
        description := strArg args "description" |>.getD "",
        status := .PENDING,
        priority := strArg args "priority" |>.getD "MEDIUM",
        result := none, error := none, completedAt := none }
    ({ s with tasks := s.tasks ++ [t] }, .ok (RVal.taskVal t))
  else if name = "update_task_status" then
    -- prisma task.update on the unique id: throws when the row is missing,
    -- otherwise updates the row in place and returns the updated record.
    -- A data field passed as undefined leaves the stored field unchanged.
    let tid := strArg args "taskId" |>.getD ""
    match s.tasks.find? (fun t => decide (t.id = tid)) with
    | none => (s, .err "Record to update not found")
    | some t0 =>
      match TaskStatus.ofString? (strArg args "status" |>.getD "") with
      | none => (s, .err "Invalid value for enum TaskStatus")
      | some st =>
        let t1 : TaskRec :=
          { t0 with
            status := st,
            result := match strArg args "result" with
                      | some v => some v | none => t0.result,
            error := match strArg args "error" with
                     | some v => some v | none => t0.error,
            completedAt :=
              if st = TaskStatus.COMPLETED then some s.now
              else t0.completedAt }
        ({ s with tasks :=
            s.tasks.map (fun x => if decide (x.id = tid) then t1 else x) },
          .ok (RVal.taskVal t1))
  else if name = "save_ongoing_instruction" then
    match TriggerType.ofString? (strArg args "triggerType" |>.getD "") with
    | none => (s, .err "Invalid value for enum TriggerType")
    | some tt =>
      let i : OngoingInstruction :=
        { id := "instr-" ++ toString s.instructions.length,
          userId := userId,
          instruction := strArg args "instruction" |>.getD "",
          triggerType := tt,
          isActive := true,
          createdAt := s.now }
      ({ s with instructions := s.instructions ++ [i] },
        .ok (RVal.instrVal i))
  else if name = "list_ongoing_instructions" then
    (s, .ok (RVal.instrList
      (sortByCreatedAtDesc
        (s.instructions.filter
          (fun i => decide (i.userId = userId) && i.isActive)))))
  else
    (s, .err ("Unknown tool: " ++ name))

/-- Character-list prefix test (pattern second). -/
def startsWithChars : List Char → List Char → Bool
  | _, [] => true
  | [], _ :: _ => false
  | c :: cs, d :: ds => decide (c = d) && startsWithChars cs ds

/-- Character-list infix test (pattern second). -/
def hasInfixChars : List Char → List Char → Bool
  | [], pat => startsWithChars [] pat
  | c :: rest, pat => startsWithChars (c :: rest) pat || hasInfixChars rest pat

/-- Substring test, case sensitive, used for the error-classification checks
in createErrorNotification (String.prototype.includes in the source). -/
def containsSub (s sub : String) : Bool :=
  hasInfixChars s.data sub.data

/-- Case-insensitive substring test (the mode insensitive contains filters of
the pending-task query). -/
def containsInsensitive (s sub : String) : Bool :=
  containsSub (lowerStr s) (lowerStr sub)

/-- Embeds executeTool of the legacy ToolService variant at src/lib/tools.ts.
Its switch is the same as the variant above except that the create_contact
case forwards straight to the HubSpot adapter with no self-contact guard,
and there is no search_calendar_events case. -/
def LegacyToolService.executeTool (userId : String) (s : SysState)
    (name : String) (args : Args) : SysState × ToolOutcome :=
  if name = "create_contact" then
    let p := HubSpotService.createContact userId args s
    (p.1, .ok p.2)
  else if name = "search_calendar_events" then
    (s, .err ("Unknown tool: " ++ name))
  else
    ToolService.executeTool userId s name args

/-! The agent loop: chat messages, the round executor, and the bounded
propose-execute loop shared by ProactiveAgent.processNewEmail and
InstructionExecutor.executeInstruction. -/

/-- One tool call proposed by the oracle. `type` mirrors toolCall.type of the
chat-completions API; `arguments` is the JSON-parsed argument object. -/
structure ToolCallReq where
  id : String
  type : String
  name : String
  arguments : Args
deriving DecidableEq, Repr

/-- Content of a tool-result message: the stringified result on success, or
the stringified error object built in the catch branch. -/
inductive MsgContent where
  | result : RVal → MsgContent
  | errObj : String → MsgContent
deriving DecidableEq, Repr

/-- Tool-result message pushed for each executed call, keyed by the call id
(tool_call_id in the source). -/
structure ToolMsg where
  tool_call_id : String
  role : String
  name : String
  content : MsgContent
deriving DecidableEq, Repr

/-- Assistant message returned by one oracle call: optional text content and
zero or more proposed tool calls. -/
structure AssistantMsg where
  content : Option String
  tool_calls : List ToolCallReq
deriving Repr

/-- Chat message of the conversation history fed to the oracle. -/
inductive ChatMsg where
  | system : String → ChatMsg
  | user : String → ChatMsg
  | assistant : AssistantMsg → ChatMsg
  | tool : ToolMsg → ChatMsg
deriving Repr

/-- The reasoning oracle: one chat-completions call, from the message history
to an assistant message. It is treated as an arbitrary function. -/
abbrev Oracle := List ChatMsg → AssistantMsg

/-- One tool executor step: from a state and a call to the next state and a
returned-or-thrown outcome. Instantiated with the per-agent step that runs
executeTool and writes notifications. -/
abbrev ExecStep (σ : Type) := σ → ToolCallReq → σ × ToolOutcome

/-- Message content for an outcome: JSON.stringify of the result on the
success path, JSON.stringify of an error object on the catch path. -/
def contentOfOutcome : ToolOutcome → MsgContent
  | .ok r => .result r
  | .err e => .errObj e

/-- Embeds the per-round body of the loop: execute every proposed call of
function type, each inside its own try and catch, and collect one
tool-result message per executed call, keyed by the call id. -/
def runRound {σ : Type} (exec : ExecStep σ) :
    σ → List ToolCallReq → σ × List ToolMsg
  | s, [] => (s, [])
  | s, tc :: rest =>
    if tc.type = "function" then
      let p := exec s tc
      let msg : ToolMsg :=
        ⟨tc.id, "tool", tc.name, contentOfOutcome p.2⟩
      let q := runRound exec p.1 rest
      (q.1, msg :: q.2)
    else
      runRound exec s rest

/-- Result of the bounded tool loop: final state, final history, the number
of rounds that executed tools, and the assistant message in hand at exit. -/
structure LoopResult (σ : Type) where
  state : σ
  history : List ChatMsg
  rounds : Nat
  finalMsg : AssistantMsg

/-- Embeds the bounded tool-calling loop shared by the agents: while the
budget lasts and the current assistant message proposes tool calls, append
the assistant message, execute the round, append the tool results, and ask
the oracle again on the grown history. -/
def runLoop {σ : Type} (oracle : Oracle) (exec : ExecStep σ) :
    Nat → σ → List ChatMsg → AssistantMsg → LoopResult σ
  | 0, s, hist, cur => ⟨s, hist, 0, cur⟩
  | Nat.succ b, s, hist, cur =>
    if cur.tool_calls.isEmpty then ⟨s, hist, 0, cur⟩
    else
      let hist1 := hist ++ [ChatMsg.assistant cur]
      let p := runRound exec s cur.tool_calls
      let hist2 := hist1 ++ p.2.map ChatMsg.tool
      let next := oracle hist2
      let r := runLoop oracle exec b p.1 hist2 next
      ⟨r.state, r.history, r.rounds + 1, r.finalMsg⟩

/-- The payload of a new-email event handed to ProactiveAgent.processNewEmail
by the poller or webhook path. `fromAddr` embeds the source field named from,
a reserved word in Lean. -/
structure EmailData where
  fromAddr : String
  subject : String
  body : String
  messageId : String
deriving DecidableEq, Repr

/-- Observable trace of one processNewEmail run: whether the instruction
query ran, how many oracle calls were made, how many tool rounds executed,
and the tool-result messages produced. -/
structure AgentTrace where
  fetchedInstructions : Bool
  oracleCalls : Nat
  rounds : Nat
  toolMessages : List ToolMsg
deriving DecidableEq, Repr

/-- Trace of a run that returned before doing anything. -/
def AgentTrace.empty : AgentTrace := ⟨false, 0, 0, []⟩

/-- Tool-result messages appearing in a history. -/
def toolMsgsOf (hist : List ChatMsg) : List ToolMsg :=
  hist.filterMap (fun m => match m with | .tool t => some t | _ => none)

/-- Embeds NotificationService.create: append one notification row. -/
def NotificationService.create (userId ntype title message severity : String)
    (s : SysState) : SysState :=
  { s with notifications :=
      s.notifications ++ [⟨userId, ntype, title, message, severity⟩] }

namespace ProactiveAgent

/-- The round budget of the email tool loop: the source allows up to five
rounds of tool calling (a hard-coded literal in processNewEmail). -/
def roundBudget : Nat := 5

/-- Embeds the instruction query of processNewEmail: the active ongoing
instructions of the user for a trigger type. The findMany carries no orderBy
clause, so the result is modelled in table (insertion) order. -/
def matchInstructions (s : SysState) (userId : String) (tt : TriggerType) :
    List OngoingInstruction :=
  s.instructions.filter
    (fun i => decide (i.userId = userId) && i.isActive &&
      decide (i.triggerType = tt))

/-- Embeds the pending-task query of processNewEmail: up to three PENDING or
WAITING_FOR_RESPONSE tasks whose title contains the sender display name or
whose description contains the from header, case-insensitively. -/
def pendingTasksFor (s : SysState) (userId : String) (ed : EmailData) :
    List TaskRec :=
  let namePart := ((ed.fromAddr.splitOn "<").headD "").trim
  s.tasks.filter (fun t =>
      decide (t.userId = userId) &&
      (decide (t.status = TaskStatus.PENDING) ||
        decide (t.status = TaskStatus.WAITING_FOR_RESPONSE)) &&
      (containsInsensitive t.title namePart ||
        containsInsensitive t.description ed.fromAddr))
    |>.take 3

/-- System directive of the email agent. -/
def emailSystemDirective : String :=
  "You are a proactive AI assistant that monitors emails and takes action based on ongoing instructions. You have access to all tools and should execute actions automatically when appropriate."

/-- Embeds the user prompt built by processNewEmail: the event payload, the
instruction texts, the related pending tasks, and the sender and user
addresses injected for the self-sent warning. The long fixed policy prose
between these fields is condensed; no claim depends on its wording. -/
def buildEmailPrompt (ed : EmailData) (instructions : List OngoingInstruction)
    (pendingTasks : List TaskRec) (senderEmail userEmail : String) : String :=
  let instructionsText :=
    String.intercalate "\n" (instructions.map (fun i => "- " ++ i.instruction))
  let tasksText :=
    if pendingTasks.length > 0 then
      "\n\nPENDING TASKS RELATED TO THIS SENDER:\n" ++
        String.intercalate "\n"
          (pendingTasks.map (fun t =>
            "- Task ID: " ++ t.id ++ ", Title: " ++ t.title))
    else ""
  "A new email was received:\nFROM: " ++ ed.fromAddr ++
    "\nSUBJECT: " ++ ed.subject ++
    "\nBODY: " ++ ed.body.take 1000 ++
    "\n\nYour ongoing instructions:\n" ++ instructionsText ++ tasksText ++
    "\n\nIMPORTANT: This email is from " ++ senderEmail ++
    ". The user email is " ++ userEmail ++ "." ++
    (if senderEmail = userEmail then
      " This is a SELF-SENT email - DO NOT create any contacts or take actions."
    else "") ++
    "\n\nExecute the appropriate tools based on the email content."

/-- Embeds ProactiveAgent.createNotificationForAction: the switch that turns
a successful tool call into at most one notification. Tool names outside the
four cases produce none. -/
def createNotificationForAction (userId toolName : String) (args : Args)
    (_result : RVal) (ed : EmailData) (s : SysState) : SysState :=
  if toolName = "create_contact" then
    NotificationService.create userId "NEW_CONTACT_CREATED"
      "New Contact Created"
      ("Created contact for " ++
        ((strArg args "email").getD ((strArg args "firstName").getD "")) ++
        " from email: " ++ ed.subject) "SUCCESS" s
  else if toolName = "create_calendar_event" then
    NotificationService.create userId "CALENDAR_EVENT_CREATED"
      "Meeting Scheduled"
      ("Scheduled " ++ ((strArg args "title").getD "") ++ " for " ++
        ((strArg args "startTime").getD "")) "SUCCESS" s
  else if toolName = "add_contact_note" then
    NotificationService.create userId "PROACTIVE_ACTION"
      "Note Added to Contact" "Added note to contact in HubSpot" "INFO" s
  else if toolName = "update_task_status" then
    if strArg args "status" = some "COMPLETED" then
      NotificationService.create userId "TASK_COMPLETED" "Task Completed"
        ("Task completed: " ++ ((strArg args "taskId").getD "")) "SUCCESS" s
    else s
  else s

/-- Embeds ProactiveAgent.createErrorNotification: classify the error and
write exactly one error notification. -/
def createErrorNotification (userId toolName errorMessage : String)
    (_ed : EmailData) (s : SysState) : SysState :=
  if containsSub errorMessage "hubspot" && containsSub errorMessage "401" then
    NotificationService.create userId "HUBSPOT_TOKEN_EXPIRED"
      "HubSpot Connection Expired"
      "Your HubSpot connection has expired. Please reconnect in the dashboard."
      "ERROR" s
  else if containsSub errorMessage "google" && containsSub errorMessage "401" then
    NotificationService.create userId "GOOGLE_TOKEN_EXPIRED"
      "Google Connection Expired"
      "Your Google connection has expired. Please sign in again." "ERROR" s
  else
    NotificationService.create userId "ERROR"
      ("Action Failed: " ++ toolName)
      ("Failed to execute " ++ toolName ++ ": " ++ errorMessage.take 200)
      "ERROR" s

/-- Embeds the per-call body of the email agent loop: run executeTool; on
return, write the action notification; on throw, write the error
notification; either way the outcome becomes the tool-result content. -/
def emailAgentStep (userId : String) (ed : EmailData) :
    ExecStep SysState := fun s tc =>
  let p := ToolService.executeTool userId s tc.name tc.arguments
  match p.2 with
  | .ok r =>
    (createNotificationForAction userId tc.name tc.arguments r ed p.1, .ok r)
  | .err e =>
    (createErrorNotification userId tc.name e ed p.1, .err e)

/-- Embeds ProactiveAgent.processNewEmail: the guards (user exists, not a
self-sent email, Google token present, some matching instruction), then the
first oracle call and the five-round tool loop. The returned trace reports
what the run did. -/
def processNewEmail (oracle : Oracle) (s : SysState) (userId : String)
    (ed : EmailData) : SysState × AgentTrace :=
  match s.users.find? (fun u => decide (u.id = userId)) with
  | none => (s, AgentTrace.empty)
  | some user =>
    let senderEmail := lowerStr (extractEmail ed.fromAddr)
    let userEmail := lowerStr user.email
    if senderEmail = userEmail then (s, AgentTrace.empty)
    else
      match googleAccessToken user with
      | none => (s, AgentTrace.empty)
      | some _tok =>
        let instructions := matchInstructions s userId TriggerType.NEW_EMAIL
        if instructions.isEmpty then
          (s, { AgentTrace.empty with fetchedInstructions := true })
        else
          let pendingTasks := pendingTasksFor s userId ed
          let prompt :=
            buildEmailPrompt ed instructions pendingTasks senderEmail userEmail
          let hist0 := [ChatMsg.system emailSystemDirective, ChatMsg.user prompt]
          let first := oracle hist0
          let r := runLoop oracle (emailAgentStep userId ed)
            roundBudget s hist0 first
          (r.state,
            { fetchedInstructions := true,
              oracleCalls := 1 + r.rounds,
              rounds := r.rounds,
              toolMessages := toolMsgsOf r.history })

end ProactiveAgent

namespace InstructionExecutor

/-- The round budget of the instruction-executor tool loop: the source
allows up to ten rounds for complex multi-step instructions (a hard-coded
literal in executeInstruction). -/
def roundBudget : Nat := 10

/-- Embeds InstructionExecutor.createNotificationForAction: like the email
agent switch but with a send_email case. -/
def createNotificationForAction (userId toolName : String) (args : Args)
    (_result : RVal) (s : SysState) : SysState :=
  if toolName = "create_contact" then
    NotificationService.create userId "NEW_CONTACT_CREATED"
      "New Contact Created"
      ("Created contact for " ++
        ((strArg args "email").getD ((strArg args "firstName").getD "")))
      "SUCCESS" s
  else if toolName = "create_calendar_event" then
    NotificationService.create userId "CALENDAR_EVENT_CREATED"
      "Meeting Scheduled"
      ("Scheduled " ++ ((strArg args "title").getD "")) "SUCCESS" s
  else if toolName = "send_email" then
    NotificationService.create userId "PROACTIVE_ACTION" "Email Sent"
      ("Sent email to " ++ ((strArg args "to").getD "")) "SUCCESS" s
  else if toolName = "add_contact_note" then
    NotificationService.create userId "PROACTIVE_ACTION"
      "Note Added to Contact" "Added note to contact in HubSpot" "INFO" s
  else s

/-- Embeds InstructionExecutor.createErrorNotification: classify and write
exactly one error notification. -/
def createErrorNotification (userId toolName errorMessage : String)
    (s : SysState) : SysState :=
  if containsSub errorMessage "hubspot" && containsSub errorMessage "401" then
    NotificationService.create userId "HUBSPOT_TOKEN_EXPIRED"
      "HubSpot Connection Expired"
      "Your HubSpot connection has expired. Please reconnect in the dashboard."
      "ERROR" s
  else if containsSub errorMessage "google" && containsSub errorMessage "401" then
    NotificationService.create userId "GOOGLE_TOKEN_EXPIRED"
      "Google Connection Expired"
      "Your Google connection has expired. Please sign in again." "ERROR" s
  else
    NotificationService.create userId "ERROR"
      ("Action Failed: " ++ toolName)
      ("Failed to execute " ++ toolName ++ ": " ++ errorMessage.take 200)
      "ERROR" s

/-- Per-call body of the instruction-executor loop. -/
def instructionAgentStep (userId : String) : ExecStep SysState := fun s tc =>
  let p := ToolService.executeTool userId s tc.name tc.arguments
  match p.2 with
  | .ok r =>
    (createNotificationForAction userId tc.name tc.arguments r p.1, .ok r)
  | .err e =>
    (createErrorNotification userId tc.name e p.1, .err e)

/-- System directive of the instruction executor. -/
def executorSystemDirective : String :=
  "You are an autonomous AI agent that executes instructions proactively. You have access to tools for Gmail, HubSpot CRM, and Google Calendar."

/-- Embeds InstructionExecutor.executeInstruction: the guards (user exists,
Google token present), then the first oracle call and the ten-round tool
loop. `contextPrompt` is the rendered event context; the prompt prose is
condensed as in the email agent. -/
def executeInstruction (oracle : Oracle) (s : SysState) (userId : String)
    (instructionText contextPrompt : String) : SysState × AgentTrace :=
  match s.users.find? (fun u => decide (u.id = userId)) with
  | none => (s, AgentTrace.empty)
  | some user =>
    match googleAccessToken user with
    | none => (s, AgentTrace.empty)
    | some _tok =>
      let prompt := contextPrompt ++ "\n\nYOUR INSTRUCTION: " ++
        instructionText ++
        "\n\nBased on this instruction and the context above, what actions should you take?"
      let hist0 := [ChatMsg.system executorSystemDirective, ChatMsg.user prompt]
      let first := oracle hist0
      let r := runLoop oracle (instructionAgentStep userId)
        roundBudget s hist0 first
      (r.state,
        { fetchedInstructions := true,
          oracleCalls := 1 + r.rounds,
          rounds := r.rounds,
          toolMessages := toolMsgsOf r.history })

end InstructionExecutor

/-- A message as fetched from the Gmail API by the poller. -/
structure GmailMessage where
  id : String
  fromAddr : String
  subject : String
  body : Option String
  snippet : Option String
  date : Nat
deriving DecidableEq, Repr

namespace BackgroundPoller

/-- Email row the poller persists for a fetched message before dispatching
the agent. -/
def mkStoredEmail (user : User) (m : GmailMessage) : StoredEmail :=
  { userId := user.id, gmailId := m.id, threadId := "",
    subject := m.subject, sender := m.fromAddr, recipient := user.email,
    body := m.body.getD "", date := m.date, isRead := false }

/-- Event payload the poller passes to the agent; the source writes
email.body || email.snippet || the empty string. -/
def edOf (m : GmailMessage) : EmailData :=
  { fromAddr := m.fromAddr, subject := m.subject,
    body :=
      (match m.body with
       | some b => if b = "" then m.snippet.getD "" else b
       | none => m.snippet.getD ""),
    messageId := m.id }

/-- Embeds the per-message loop of pollUserEmails: skip a message whose
gmailId already has an Email row for this user; otherwise persist the row
first, then dispatch the proactive agent. Returns the final state and the
list of message ids for which an agent run was dispatched. -/
def pollEmailsLoop (oracle : Oracle) (user : User) :
    List GmailMessage → SysState → SysState × List String
  | [], s => (s, [])
  | m :: rest, s =>
    match s.emails.find?
        (fun e => decide (e.userId = user.id) && decide (e.gmailId = m.id)) with
    | some _ => pollEmailsLoop oracle user rest s
    | none =>
      let s1 := { s with emails := s.emails ++ [mkStoredEmail user m] }
      let s2 := (ProactiveAgent.processNewEmail oracle s1 user.id (edOf m)).1
      let q := pollEmailsLoop oracle user rest s2
      (q.1, m.id :: q.2)

/-- Embeds BackgroundPoller.pollUserEmails: the guards (the user has an
active NEW_EMAIL instruction, a Google token, and the fetch returned
something), then the per-message loop. `newEmails` is what the Gmail fetch
for the watermark returned; re-running the detector over the same external
state and watermark is modelled as calling this twice with the same list. -/
def pollUserEmails (oracle : Oracle) (user : User)
    (newEmails : List GmailMessage) (s : SysState) :
    SysState × List String :=
  let active := s.instructions.filter
    (fun i => decide (i.userId = user.id) && i.isActive)
  if ! active.any (fun i => decide (i.triggerType = TriggerType.NEW_EMAIL)) then
    (s, [])
  else
    match googleAccessToken user with
    | none => (s, [])
    | some _tok =>
      if newEmails.isEmpty then (s, [])
      else pollEmailsLoop oracle user newEmails s

end BackgroundPoller

/-! Helper lemmas about the loop machinery. -/

/-- History after the assistant message and the round results of a
nonempty round. -/
def nextHistory {σ : Type} (exec : ExecStep σ) (s : σ)
    (hist : List ChatMsg) (cur : AssistantMsg) : List ChatMsg :=
  (hist ++ [ChatMsg.assistant cur]) ++
    (runRound exec s cur.tool_calls).2.map ChatMsg.tool

/-- Unfolding of one loop step when the current message proposes calls. -/
theorem runLoop_succ_ne {σ : Type} (oracle : Oracle) (exec : ExecStep σ)
    (b : Nat) (s : σ) (hist : List ChatMsg) (cur : AssistantMsg)
    (h : cur.tool_calls.isEmpty = false) :
    runLoop oracle exec (b + 1) s hist cur =
      { state := (runLoop oracle exec b (runRound exec s cur.tool_calls).1
          (nextHistory exec s hist cur)
          (oracle (nextHistory exec s hist cur))).state,
        history := (runLoop oracle exec b (runRound exec s cur.tool_calls).1
          (nextHistory exec s hist cur)
          (oracle (nextHistory exec s hist cur))).history,
        rounds := (runLoop oracle exec b (runRound exec s cur.tool_calls).1
          (nextHistory exec s hist cur)
          (oracle (nextHistory exec s hist cur))).rounds + 1,
        finalMsg := (runLoop oracle exec b (runRound exec s cur.tool_calls).1
          (nextHistory exec s hist cur)
          (oracle (nextHistory exec s hist cur))).finalMsg } := by
  simp only [runLoop, h, nextHistory]
  rfl

/-- Unfolding of one loop step when the current message proposes none. -/
theorem runLoop_succ_empty {σ : Type} (oracle : Oracle) (exec : ExecStep σ)
    (b : Nat) (s : σ) (hist : List ChatMsg) (cur : AssistantMsg)
    (h : cur.tool_calls.isEmpty = true) :
    runLoop oracle exec (b + 1) s hist cur = ⟨s, hist, 0, cur⟩ := by
  simp only [runLoop, h]
  rfl

/-- The loop uses at most its budget of rounds, and stopping strictly below
the budget can only happen because the assistant message in hand proposes no
tool calls. -/
theorem runLoop_rounds_le {σ : Type} (oracle : Oracle) (exec : ExecStep σ)
    (b : Nat) : ∀ (s : σ) (hist : List ChatMsg) (cur : AssistantMsg),
    (runLoop oracle exec b s hist cur).rounds ≤ b ∧
    ((runLoop oracle exec b s hist cur).rounds < b →
      (runLoop oracle exec b s hist cur).finalMsg.tool_calls = []) := by
  induction b with
  | zero =>
    intro s hist cur
    refine ⟨Nat.le_refl _, fun h => absurd h (by simp [runLoop])⟩
  | succ b ih =>
    intro s hist cur
    by_cases h : cur.tool_calls.isEmpty
    · have hnil : cur.tool_calls = [] := by
        cases hc : cur.tool_calls with
        | nil => rfl
        | cons a l => rw [hc] at h; simp [List.isEmpty] at h
      rw [runLoop_succ_empty oracle exec b s hist cur h]
      exact ⟨Nat.zero_le _, fun _ => hnil⟩
    · have h' : cur.tool_calls.isEmpty = false := by
        cases hc : cur.tool_calls.isEmpty with
        | false => rfl
        | true => exact absurd hc h
      rw [runLoop_succ_ne oracle exec b s hist cur h']
      have hr := ih (runRound exec s cur.tool_calls).1
        (nextHistory exec s hist cur) (oracle (nextHistory exec s hist cur))
      exact ⟨Nat.succ_le_succ hr.1,
        fun hlt => hr.2 (Nat.lt_of_succ_lt_succ hlt)⟩

/-- A positive budget and a nonempty proposal make the loop execute at least
one round (the run continues instead of aborting). -/
theorem runLoop_pos_rounds {σ : Type} (oracle : Oracle) (exec : ExecStep σ)
    (b : Nat) (s : σ) (hist : List ChatMsg) (cur : AssistantMsg)
    (h : cur.tool_calls ≠ []) :
    1 ≤ (runLoop oracle exec (b + 1) s hist cur).rounds := by
  have hne : cur.tool_calls.isEmpty = false := by
    cases hc : cur.tool_calls with
    | nil => exact absurd hc h
    | cons a l => simp [List.isEmpty]
  rw [runLoop_succ_ne oracle exec b s hist cur hne]
  exact Nat.succ_le_succ (Nat.zero_le _)

/-! Concrete fixtures used by the witness theorems. -/

/-- Google account with a usable token. -/
def wAccount : Account := ⟨"google", some "google-token", some "refresh-token"⟩

/-- User with connected Google and HubSpot accounts. -/
def wUser : User := ⟨"u1", "me@x.com", some "hubspot-token", [wAccount]⟩

/-- Active NEW_EMAIL instruction of that user. -/
def wInstr : OngoingInstruction :=
  ⟨"i1", "u1", "create a contact for every new sender", .NEW_EMAIL, true, 50⟩

/-- Base system state: one user, one active NEW_EMAIL instruction, empty
tables otherwise. -/
def wState : SysState :=
  ⟨1000, [wUser], [], [], [wInstr], [], [], [], [], [], [], []⟩

/-- Oracle that answers with text and no tool calls. -/
def wOracleQuiet : Oracle := fun _ => ⟨some "done", []⟩

/-- Executor step that always throws, over a counter state. -/
def wExecFail : ExecStep Nat := fun n _ => (n, .err "boom")

/-- Inbound email event from an external sender. -/
def wEd : EmailData := ⟨"alice@x.com", "Hello", "Body", "m-1"⟩

/-- C2: for any instruction or event pair and any sequence of oracle
responses, each proposing arbitrarily many tool calls, the agent loop
terminates within the configured round budget (the hard-coded five rounds of
ProactiveAgent.processNewEmail, ten of
InstructionExecutor.executeInstruction): the round count never exceeds the
budget, and an exit below the budget happens exactly because a propose round
yielded no tool calls. The loop is a total function, so termination is in
finite time. -/
theorem agentLoop_round_budget_termination :
    ∀ (σ : Type) (oracle : Oracle) (exec : ExecStep σ) (s : σ)
      (hist : List ChatMsg) (cur : AssistantMsg) (st : SysState)
      (uid : String) (ed : EmailData) (instrText ctx : String),
    ((runLoop oracle exec ProactiveAgent.roundBudget s hist cur).rounds ≤
        ProactiveAgent.roundBudget ∧
      ((runLoop oracle exec ProactiveAgent.roundBudget s hist cur).rounds <
          ProactiveAgent.roundBudget →
        (runLoop oracle exec ProactiveAgent.roundBudget s hist
          cur).finalMsg.tool_calls = [])) ∧
    ((runLoop oracle exec InstructionExecutor.roundBudget s hist cur).rounds ≤
        InstructionExecutor.roundBudget ∧
      ((runLoop oracle exec InstructionExecutor.roundBudget s hist cur).rounds <
          InstructionExecutor.roundBudget →
        (runLoop oracle exec InstructionExecutor.roundBudget s hist
          cur).finalMsg.tool_calls = [])) ∧
    (ProactiveAgent.processNewEmail oracle st uid ed).2.rounds ≤
      ProactiveAgent.roundBudget ∧
    (InstructionExecutor.executeInstruction oracle st uid instrText ctx).2.rounds ≤
      InstructionExecutor.roundBudget := by
  intro σ oracle exec s hist cur st uid ed instrText ctx
  refine ⟨runLoop_rounds_le oracle exec _ s hist cur,
    runLoop_rounds_le oracle exec _ s hist cur, ?_, ?_⟩
  · unfold ProactiveAgent.processNewEmail
    dsimp only
    repeat' split
    all_goals
      first
      | exact Nat.zero_le _
      | exact (runLoop_rounds_le oracle _ _ _ _ _).1
  · unfold InstructionExecutor.executeInstruction
    dsimp only
    repeat' split
    all_goals
      first
      | exact Nat.zero_le _
      | exact (runLoop_rounds_le oracle _ _ _ _ _).1

/-- Witness for C2 at concrete inputs: an oracle proposing no calls, an
always-throwing executor, and the base fixture state. -/
theorem agentLoop_round_budget_termination_witness :
    (runLoop wOracleQuiet wExecFail ProactiveAgent.roundBudget (0 : Nat) []
      ⟨none, []⟩).rounds ≤ ProactiveAgent.roundBudget ∧
    (runLoop wOracleQuiet wExecFail ProactiveAgent.roundBudget (0 : Nat) []
      ⟨none, []⟩).finalMsg.tool_calls = [] ∧
    (ProactiveAgent.processNewEmail wOracleQuiet wState "u1" wEd).2.rounds ≤
      ProactiveAgent.roundBudget ∧
    (InstructionExecutor.executeInstruction wOracleQuiet wState "u1"
      "greet new senders" "context").2.rounds ≤
      InstructionExecutor.roundBudget := by
  have h := agentLoop_round_budget_termination Nat wOracleQuiet wExecFail 0 []
    ⟨none, []⟩ wState "u1" wEd "greet new senders" "context"
  exact ⟨h.1.1, h.1.2 (by decide), h.2.2.1, h.2.2.2⟩

/-- C3: an inbound email whose sender address (as extracted from the from
header, compared case-insensitively as the source does) equals the acting
user email is discarded before instruction matching: the state is unchanged
and the trace shows no instruction fetch, no oracle call, no tool execution,
and hence no dispatched agent run. -/
theorem selfLoop_suppression :
    ∀ (oracle : Oracle) (s : SysState) (uid : String) (ed : EmailData)
      (u : User),
    s.users.find? (fun x => decide (x.id = uid)) = some u →
    lowerStr (extractEmail ed.fromAddr) = lowerStr u.email →
    ProactiveAgent.processNewEmail oracle s uid ed = (s, AgentTrace.empty) := by
  intro oracle s uid ed u hu hself
  unfold ProactiveAgent.processNewEmail
  rw [hu]
  dsimp only
  rw [if_pos hself]

/-- Self-sent event used by the C3 witness. -/
def wSelfEd : EmailData := ⟨"Me <me@x.com>", "Note to self", "Body", "m-2"⟩

/-- Witness for C3: even though the fixture user has an active NEW_EMAIL
instruction, a self-sent email leaves the state untouched and the trace
empty. -/
theorem selfLoop_suppression_witness :
    (ProactiveAgent.matchInstructions wState "u1" TriggerType.NEW_EMAIL).length
        = 1 ∧
    ProactiveAgent.processNewEmail wOracleQuiet wState "u1" wSelfEd =
      (wState, AgentTrace.empty) :=
  ⟨by decide,
    selfLoop_suppression wOracleQuiet wState "u1" wSelfEd wUser (by decide)
      (by decide)⟩

/-- C10: when the acting user does not exist, or exists but has no Google
account with a nonempty access token, processNewEmail returns at once: the
state is unchanged (no store mutation, no notification) and the trace shows
no oracle call and no tool execution, regardless of what instructions the
user has. -/
theorem missing_user_or_token_noop :
    ∀ (oracle : Oracle) (s : SysState) (uid : String) (ed : EmailData),
    (s.users.find? (fun x => decide (x.id = uid)) = none ∨
      (∃ u, s.users.find? (fun x => decide (x.id = uid)) = some u ∧
        googleAccessToken u = none)) →
    ProactiveAgent.processNewEmail oracle s uid ed = (s, AgentTrace.empty) := by
  intro oracle s uid ed h
  unfold ProactiveAgent.processNewEmail
  rcases h with h | ⟨u, hu, hg⟩
  · rw [h]
  · rw [hu]
    dsimp only
    by_cases hself : lowerStr (extractEmail ed.fromAddr) = lowerStr u.email
    · rw [if_pos hself]
    · rw [if_neg hself, hg]

/-- User with no Google account at all. -/
def wUserNoG : User := ⟨"u2", "me2@x.com", some "hubspot-token", []⟩

/-- Active NEW_EMAIL instruction of the user without Google access. -/
def wInstr2 : OngoingInstruction :=
  ⟨"i2", "u2", "log every email in the CRM", .NEW_EMAIL, true, 60⟩

/-- State for the C10 witness: the user exists and has an active NEW_EMAIL
instruction whose action needs no Google access, but no Google account. -/
def wStateNoG : SysState :=
  ⟨1000, [wUserNoG], [], [], [wInstr2], [], [], [], [], [], [], []⟩

/-- Witness for C10: the user has an active NEW_EMAIL instruction, yet the
run performs nothing because there is no Google access token. -/
theorem missing_user_or_token_noop_witness :
    (ProactiveAgent.matchInstructions wStateNoG "u2" TriggerType.NEW_EMAIL).length
        = 1 ∧
    ProactiveAgent.processNewEmail wOracleQuiet wStateNoG "u2" wEd =
      (wStateNoG, AgentTrace.empty) :=
  ⟨by decide,
    missing_user_or_token_noop wOracleQuiet wStateNoG "u2" wEd
      (Or.inr ⟨wUserNoG, by decide, by decide⟩)⟩

/-- Arguments of a create_contact call that targets the acting user own
address. -/
def wArgsSelf : Args := [("email", AVal.s "me@x.com")]

/-- C4 (amended): in the ToolService variant the proactive agent uses, a
create_contact call whose email argument equals the acting user own email
returns a structured refusal object as a normal return value, not a thrown
error, and performs no store mutation: the state comes back unchanged, so no
HubSpot contact and no local Contact row is written and no adapter call is
made. The legacy ToolService variant at src/lib/tools.ts lacks this guard;
see the counterexample theorem. -/
theorem create_contact_self_refusal :
    ∀ (s : SysState) (uid : String) (args : Args) (u : User),
    s.users.find? (fun x => decide (x.id = uid)) = some u →
    strArg args "email" = some u.email →
    ToolService.executeTool uid s "create_contact" args =
      (s, .ok (RVal.obj
        [("error", "Cannot create contact for yourself"),
         ("message", "This is your own email address. Contacts should only be created for other people.")])) := by
  intro s uid args u hu he
  unfold ToolService.executeTool
  simp only [String.reduceEq, if_false, reduceIte, hu]
  rw [if_pos he]

/-- Witness for C4: the guarded executeTool refuses a self-contact and
leaves the fixture state untouched. -/
theorem create_contact_self_refusal_witness :
    ToolService.executeTool "u1" wState "create_contact" wArgsSelf =
      (wState, .ok (RVal.obj
        [("error", "Cannot create contact for yourself"),
         ("message", "This is your own email address. Contacts should only be created for other people.")])) :=
  create_contact_self_refusal wState "u1" wArgsSelf wUser (by decide)
    (by decide)

/-- C4 counterexample: the legacy ToolService variant at src/lib/tools.ts
forwards a create_contact call for the acting user own address straight to
the HubSpot adapter: a CRM contact and a local Contact row are written, the
adapter is invoked, and the call returns success instead of a refusal. -/
theorem legacy_create_contact_no_guard :
    (wState.users.find? (fun x => decide (x.id = "u1")) = some wUser ∧
      wUser.email = "me@x.com") ∧
    (LegacyToolService.executeTool "u1" wState "create_contact"
        wArgsSelf).1.hubspotContacts.length =
      wState.hubspotContacts.length + 1 ∧
    (LegacyToolService.executeTool "u1" wState "create_contact"
        wArgsSelf).1.contacts.length = wState.contacts.length + 1 ∧
    (LegacyToolService.executeTool "u1" wState "create_contact"
        wArgsSelf).1.adapterCalls = ["hubspot.createContact"] ∧
    (LegacyToolService.executeTool "u1" wState "create_contact"
        wArgsSelf).2.isOk = true := by
  decide

/-- Arguments for create_calendar_event that violate its schema: the
required startTime and endTime keys are missing. -/
def wArgsNoTimes : Args := [("title", AVal.s "Quarterly sync")]

/-- C5 counterexample: a create_calendar_event call missing the required
startTime and endTime arguments fails schema validation, yet executeTool
performs no such validation and nothing is caught before adapter
invocation: the Calendar capability adapter is invoked (the trace records
entry into createEvent), and the failure is the RangeError raised inside
the wrapper at toISOString on the Invalid Date, after which no event row
exists - there was no structured pre-adapter rejection. -/
theorem schema_invalid_reaches_adapter :
    (toolSchema "create_calendar_event").map
        (fun t => schemaValidates t wArgsNoTimes) = some false ∧
    (ToolService.executeTool "u1" wState "create_calendar_event"
        wArgsNoTimes).1.adapterCalls = ["calendar.createEvent"] ∧
    (ToolService.executeTool "u1" wState "create_calendar_event"
        wArgsNoTimes).2 = .err "RangeError: Invalid time value" ∧
    (ToolService.executeTool "u1" wState "create_calendar_event"
        wArgsNoTimes).1.calendarEvents = [] := by
  decide

/-- C5 (amended): a tool call that throws is caught per call: it yields a
structured error result recorded as the tool-result message for that call id,
the remaining calls of the round still execute, and the run continues to the
next round instead of aborting. No schema validation happens before adapter
invocation; see the counterexample theorem. -/
theorem tool_error_feedback_continues :
    ∀ (σ : Type) (exec : ExecStep σ) (oracle : Oracle) (s s' : σ)
      (c : ToolCallReq) (rest : List ToolCallReq) (e : String)
      (hist : List ChatMsg) (b : Nat) (ct : Option String),
    c.type = "function" →
    exec s c = (s', .err e) →
    (runRound exec s (c :: rest)).2 =
      ⟨c.id, "tool", c.name, MsgContent.errObj e⟩ ::
        (runRound exec s' rest).2 ∧
    1 ≤ (runLoop oracle exec (b + 1) s hist ⟨ct, c :: rest⟩).rounds := by
  intro σ exec oracle s s' c rest e hist b ct hc hexec
  constructor
  · simp only [runRound, hc, reduceIte, hexec, contentOfOutcome]
  · exact runLoop_pos_rounds oracle exec b s hist ⟨ct, c :: rest⟩ (by simp)

/-- Tool call fixture for the loop theorems. -/
def wCallSend : ToolCallReq := ⟨"call-1", "function", "send_email", []⟩

/-- Witness for C5 (amended): an always-throwing executor still produces the
keyed error message and the loop still runs a round. -/
theorem tool_error_feedback_continues_witness :
    (runRound wExecFail 0 [wCallSend]).2 =
      [⟨"call-1", "tool", "send_email", MsgContent.errObj "boom"⟩] ∧
    1 ≤ (runLoop wOracleQuiet wExecFail 1 0 [] ⟨none, [wCallSend]⟩).rounds := by
  have h := tool_error_feedback_continues Nat wExecFail wOracleQuiet 0 0
    wCallSend [] "boom" [] 0 none rfl rfl
  exact ⟨h.1, h.2⟩

/-- Each function-typed call of a round yields exactly one message keyed by
its call id, whatever each execution step returns. -/
theorem runRound_ids {σ : Type} (exec : ExecStep σ) :
    ∀ (calls : List ToolCallReq) (s : σ),
    (∀ c ∈ calls, c.type = "function") →
    (runRound exec s calls).2.map (fun m => m.tool_call_id) =
      calls.map (fun c => c.id) := by
  intro calls
  induction calls with
  | nil => intro s _; rfl
  | cons c rest ih =>
    intro s hall
    have hc : c.type = "function" := hall c (List.mem_cons_self c rest)
    have hrest : ∀ x ∈ rest, x.type = "function" :=
      fun x hx => hall x (List.mem_cons_of_mem c hx)
    simp only [runRound, hc, reduceIte, List.map_cons]
    exact congrArg (c.id :: ·) (ih (exec s c).1 hrest)

/-- Every message a round produces is a tool-role message. -/
theorem runRound_roles {σ : Type} (exec : ExecStep σ) :
    ∀ (calls : List ToolCallReq) (s : σ),
    ∀ m ∈ (runRound exec s calls).2, m.role = "tool" := by
  intro calls
  induction calls with
  | nil => intro s m hm; simp [runRound] at hm
  | cons c rest ih =>
    intro s m hm
    by_cases hc : c.type = "function"
    · simp only [runRound, hc, reduceIte, List.mem_cons] at hm
      rcases hm with hm | hm
      · rw [hm]
      · exact ih (exec s c).1 m hm
    · simp only [runRound, hc, reduceIte] at hm
      exact ih s m hm

/-- C6: within one round of the email agent loop, every proposed tool call
executes and its outcome is recorded as a tool-result message keyed by the
call id. The statement holds for every execution step, including ones that
fail on some calls, so one failing call neither removes the other calls nor
their messages; and the whole round result is appended to the history the
oracle sees next. -/
theorem round_per_call_isolation :
    ∀ (σ : Type) (exec : ExecStep σ) (s : σ) (calls : List ToolCallReq)
      (oracle : Oracle) (hist : List ChatMsg) (ct : Option String),
    (∀ c ∈ calls, c.type = "function") →
    calls ≠ [] →
    (runRound exec s calls).2.map (fun m => m.tool_call_id) =
        calls.map (fun c => c.id) ∧
      (∀ m ∈ (runRound exec s calls).2, m.role = "tool") ∧
      (runLoop oracle exec 1 s hist ⟨ct, calls⟩).history =
        (hist ++ [ChatMsg.assistant ⟨ct, calls⟩]) ++
          (runRound exec s calls).2.map ChatMsg.tool := by
  intro σ exec s calls oracle hist ct hall hne
  refine ⟨runRound_ids exec calls s hall, runRound_roles exec calls s, ?_⟩
  have hempty : (AssistantMsg.mk ct calls).tool_calls.isEmpty = false := by
    cases hc : calls with
    | nil => exact absurd hc hne
    | cons a l => simp [List.isEmpty]
  rw [runLoop_succ_ne oracle exec 0 s hist ⟨ct, calls⟩ hempty]
  rfl

/-- Executor over a counter that succeeds on the call with id a and throws
on every other call. -/
def wExecMixed : ExecStep Nat := fun n c =>
  if c.id = "a" then (n + 1, .ok (RVal.obj [("success", "true")]))
  else (n, .err "boom")

/-- Round with two proposed calls, the first succeeding and the second
failing under `wExecMixed`. -/
def wCallsPair : List ToolCallReq :=
  [⟨"a", "function", "send_email", []⟩,
   ⟨"b", "function", "create_contact", []⟩]

/-- Witness for C6: with one succeeding and one failing call in the same
round, both outcomes are recorded under their call ids and both messages
reach the history handed to the oracle. -/
theorem round_per_call_isolation_witness :
    (runRound wExecMixed 0 wCallsPair).2.map (fun m => m.tool_call_id) =
        ["a", "b"] ∧
      (∀ m ∈ (runRound wExecMixed 0 wCallsPair).2, m.role = "tool") ∧
      (runLoop wOracleQuiet wExecMixed 1 0 [] ⟨none, wCallsPair⟩).history =
        ([] ++ [ChatMsg.assistant ⟨none, wCallsPair⟩]) ++
          (runRound wExecMixed 0 wCallsPair).2.map ChatMsg.tool := by
  have h := round_per_call_isolation Nat wExecMixed 0 wCallsPair wOracleQuiet
    [] none (by decide) (by decide)
  exact h

/-- Two active NEW_EMAIL instructions of the same user, stored oldest
first. -/
def wOld : OngoingInstruction := ⟨"iA", "u1", "older rule", .NEW_EMAIL, true, 10⟩

/-- Newer of the two stored instructions. -/
def wNew : OngoingInstruction := ⟨"iB", "u1", "newer rule", .NEW_EMAIL, true, 90⟩

/-- State whose instruction table holds the older row before the newer one. -/
def wStateTwo : SysState :=
  ⟨1000, [wUser], [], [], [wOld, wNew], [], [], [], [], [], [], []⟩

/-- C7 counterexample: the instruction query of processNewEmail carries no
ordering clause, so the matcher returns the rows in table order: with an
older instruction stored before a newer one it returns the older one first,
not most-recently-created first. -/
theorem matcher_not_ordered_desc :
    ProactiveAgent.matchInstructions wStateTwo "u1" TriggerType.NEW_EMAIL =
        [wOld, wNew] ∧
    wOld.createdAt < wNew.createdAt ∧
    ¬ List.Sorted createdNoEarlier
      (ProactiveAgent.matchInstructions wStateTwo "u1"
        TriggerType.NEW_EMAIL) := by
  refine ⟨by decide, by decide, ?_⟩
  intro hs
  rw [show ProactiveAgent.matchInstructions wStateTwo "u1"
      TriggerType.NEW_EMAIL = [wOld, wNew] from by decide] at hs
  have h := (List.sorted_cons.mp hs).1 wNew (by simp)
  exact absurd h (by decide)

/-- C7 (amended): the matcher returns exactly the active instructions of the
user for the trigger type, in table order with no ordering guarantee; an
empty match makes the caller return without an error, an oracle call or a
tool execution; and the separate list_ongoing_instructions tool returns the
active instructions of the user (all trigger types) ordered by creation
timestamp descending. -/
theorem matcher_exact_empty_noop_list_sorted :
    (∀ (s : SysState) (uid : String) (tt : TriggerType)
        (i : OngoingInstruction),
      i ∈ ProactiveAgent.matchInstructions s uid tt ↔
        (i ∈ s.instructions ∧ i.userId = uid ∧ i.isActive = true ∧
          i.triggerType = tt)) ∧
    (∀ (oracle : Oracle) (s : SysState) (uid : String) (ed : EmailData),
      ProactiveAgent.matchInstructions s uid TriggerType.NEW_EMAIL = [] →
      (ProactiveAgent.processNewEmail oracle s uid ed).1 = s ∧
      (ProactiveAgent.processNewEmail oracle s uid ed).2.oracleCalls = 0 ∧
      (ProactiveAgent.processNewEmail oracle s uid ed).2.toolMessages = []) ∧
    (∀ (s : SysState) (uid : String),
      (ToolService.executeTool uid s "list_ongoing_instructions" []).2 =
        .ok (RVal.instrList (sortByCreatedAtDesc
          (s.instructions.filter
            (fun i => decide (i.userId = uid) && i.isActive)))) ∧
      List.Sorted createdNoEarlier
        (sortByCreatedAtDesc
          (s.instructions.filter
            (fun i => decide (i.userId = uid) && i.isActive))) ∧
      ∀ i, i ∈ sortByCreatedAtDesc
          (s.instructions.filter
            (fun i => decide (i.userId = uid) && i.isActive)) ↔
        (i ∈ s.instructions ∧ i.userId = uid ∧ i.isActive = true)) := by
  refine ⟨?_, ?_, ?_⟩
  · intro s uid tt i
    simp [ProactiveAgent.matchInstructions, List.mem_filter, and_assoc]
  · intro oracle s uid ed h
    unfold ProactiveAgent.processNewEmail
    dsimp only
    repeat' split
    all_goals simp_all [AgentTrace.empty]
  · intro s uid
    haveI hTot : IsTotal OngoingInstruction createdNoEarlier :=
      ⟨fun a b => Nat.le_total b.createdAt a.createdAt⟩
    haveI hTrans : IsTrans OngoingInstruction createdNoEarlier :=
      ⟨fun _ _ _ hab hbc => Nat.le_trans hbc hab⟩
    refine ⟨?_, ?_, ?_⟩
    · unfold ToolService.executeTool
      simp only [String.reduceEq, reduceIte]
    · exact List.sorted_insertionSort createdNoEarlier _
    · intro i
      rw [sortByCreatedAtDesc,
        (List.perm_insertionSort createdNoEarlier _).mem_iff]
      simp [List.mem_filter]

/-- Witness for C7 (amended): the fixture instruction satisfies the
membership characterisation; a user with no matching instructions triggers
the no-op path; and the two-instruction fixture lists sorted. -/
theorem matcher_exact_empty_noop_list_sorted_witness :
    (wInstr ∈ ProactiveAgent.matchInstructions wState "u1"
        TriggerType.NEW_EMAIL ↔
      (wInstr ∈ wState.instructions ∧ wInstr.userId = "u1" ∧
        wInstr.isActive = true ∧ wInstr.triggerType = TriggerType.NEW_EMAIL)) ∧
    ((ProactiveAgent.processNewEmail wOracleQuiet wStateNoG "u1" wEd).1 =
        wStateNoG ∧
      (ProactiveAgent.processNewEmail wOracleQuiet wStateNoG "u1" wEd).2.oracleCalls = 0 ∧
      (ProactiveAgent.processNewEmail wOracleQuiet wStateNoG "u1" wEd).2.toolMessages = []) ∧
    List.Sorted createdNoEarlier
      (sortByCreatedAtDesc
        (wStateTwo.instructions.filter
          (fun i => decide (i.userId = "u1") && i.isActive))) :=
  ⟨matcher_exact_empty_noop_list_sorted.1 wState "u1" TriggerType.NEW_EMAIL
      wInstr,
    matcher_exact_empty_noop_list_sorted.2.1 wOracleQuiet wStateNoG "u1" wEd
      (by decide),
    (matcher_exact_empty_noop_list_sorted.2.2 wStateTwo "u1").2.1⟩

/-- Successful send_email call proposed by the oracle. -/
def wSendCall : ToolCallReq :=
  ⟨"c1", "function", "send_email",
    [("to", AVal.s "alice@x.com"), ("subject", AVal.s "Re: Hello"),
     ("body", AVal.s "Hi")]⟩

/-- C8 counterexample: a successful send_email executed by the email agent
is a side-effecting tool invocation (the message is handed to the Gmail
API), yet ProactiveAgent.createNotificationForAction has no send_email case,
so the outcome produces zero notifications rather than exactly one. -/
theorem send_email_success_no_notification :
    (ProactiveAgent.emailAgentStep "u1" wEd wState wSendCall).1.notifications
        = [] ∧
    wState.notifications = [] ∧
    (ProactiveAgent.emailAgentStep "u1" wEd wState
        wSendCall).1.sentEmails.length = wState.sentEmails.length + 1 ∧
    (ProactiveAgent.emailAgentStep "u1" wEd wState wSendCall).2.isOk
        = true := by
  decide

/-- Successful create_calendar_event call with parseable ISO times. -/
def wEventCall : ToolCallReq :=
  ⟨"c2", "function", "create_calendar_event",
    [("title", AVal.s "Sync"), ("startTime", AVal.s "2025-01-01T10:00:00Z"),
     ("endTime", AVal.s "2025-01-01T11:00:00Z")]⟩

/-- Successful add_contact_note call. -/
def wNoteCall : ToolCallReq :=
  ⟨"c3", "function", "add_contact_note",
    [("contactId", AVal.s "hs-1"), ("note", AVal.s "met at the conference")]⟩

/-- Read-only search_contacts call. -/
def wSearchCall : ToolCallReq :=
  ⟨"c4", "function", "search_contacts", [("query", AVal.s "alice")]⟩

/-- Successful create_contact call for another person. -/
def wContactCall : ToolCallReq :=
  ⟨"c5", "function", "create_contact", [("email", AVal.s "bob@y.z")]⟩

/-- Successful create_task call. -/
def wTaskCall : ToolCallReq :=
  ⟨"c6", "function", "create_task",
    [("title", AVal.s "Follow up"), ("description", AVal.s "Reply to Bob")]⟩

/-- Successful save_ongoing_instruction call. -/
def wSaveCall : ToolCallReq :=
  ⟨"c7", "function", "save_ongoing_instruction",
    [("instruction", AVal.s "always log new senders"),
     ("triggerType", AVal.s "NEW_EMAIL")]⟩

/-- Task already in the terminal COMPLETED status. -/
def wDoneTask : TaskRec :=
  ⟨"t1", "u1", "Schedule with Bob", "waiting on reply", .COMPLETED, "MEDIUM",
    some "done", none, some 900⟩

/-- State holding the completed task. -/
def wStateTask : SysState := { wState with tasks := [wDoneTask] }

/-- Successful update_task_status call that completes the fixture task. -/
def wUpdateCall : ToolCallReq :=
  ⟨"c8", "function", "update_task_status",
    [("taskId", AVal.s "t1"), ("status", AVal.s "COMPLETED")]⟩

/-- C8 (amended): in the email agent loop a successful create_contact,
create_calendar_event (with parseable times; unparseable times throw inside
the wrapper and take the error path below) or add_contact_note call produces
exactly one notification, and update_task_status produces one exactly when
it sets status COMPLETED; a successful send_email - though side-effecting -
produces none, as do create_task, save_ongoing_instruction and the
read-only search_contacts; and every caught tool error - whatever the tool -
produces exactly one error notification. A successful calendar insert also
dispatches the calendar-event agent, recorded on the dispatch trace; that
nested run writes no notifications of its own in the source. -/
theorem notification_per_tool_outcome :
    ∀ (uid : String) (ed : EmailData) (s : SysState) (tc : ToolCallReq)
      (toolName e : String),
    (tc.name = "send_email" →
      (ProactiveAgent.emailAgentStep uid ed s tc).1.notifications =
          s.notifications ∧
        (ProactiveAgent.emailAgentStep uid ed s tc).1.sentEmails.length =
          s.sentEmails.length + 1) ∧
    (tc.name = "create_contact" →
      (ProactiveAgent.emailAgentStep uid ed s tc).1.notifications.length =
        s.notifications.length + 1) ∧
    (tc.name = "create_calendar_event" →
      jsDateValid (strArg tc.arguments "startTime") = true →
      jsDateValid (strArg tc.arguments "endTime") = true →
      (ProactiveAgent.emailAgentStep uid ed s tc).1.notifications.length =
          s.notifications.length + 1 ∧
        (ProactiveAgent.emailAgentStep uid ed s tc).1.agentDispatches.length =
          s.agentDispatches.length + 1) ∧
    (tc.name = "add_contact_note" →
      (ProactiveAgent.emailAgentStep uid ed s tc).1.notifications.length =
        s.notifications.length + 1) ∧
    (∀ (tid stS : String) (st : TaskStatus) (t : TaskRec),
      tc.name = "update_task_status" →
      strArg tc.arguments "taskId" = some tid →
      strArg tc.arguments "status" = some stS →
      TaskStatus.ofString? stS = some st →
      s.tasks.find? (fun x => decide (x.id = tid)) = some t →
      (ProactiveAgent.emailAgentStep uid ed s tc).1.notifications.length =
        s.notifications.length + (if stS = "COMPLETED" then 1 else 0)) ∧
    (tc.name = "create_task" →
      (ProactiveAgent.emailAgentStep uid ed s tc).1.notifications =
          s.notifications ∧
        (ProactiveAgent.emailAgentStep uid ed s tc).1.tasks.length =
          s.tasks.length + 1) ∧
    (∀ (tt : TriggerType),
      tc.name = "save_ongoing_instruction" →
      TriggerType.ofString? ((strArg tc.arguments "triggerType").getD "")
          = some tt →
      (ProactiveAgent.emailAgentStep uid ed s tc).1.notifications =
          s.notifications ∧
        (ProactiveAgent.emailAgentStep uid ed s tc).1.instructions.length =
          s.instructions.length + 1) ∧
    (tc.name = "search_contacts" →
      (ProactiveAgent.emailAgentStep uid ed s tc).1.notifications =
        s.notifications) ∧
    (ProactiveAgent.createErrorNotification uid toolName e ed
        s).notifications.length = s.notifications.length + 1 := by
  intro uid ed s tc toolName e
  refine ⟨?_, ?_, ?_, ?_, ?_, ?_, ?_, ?_, ?_⟩
  · intro h
    simp [ProactiveAgent.emailAgentStep, ToolService.executeTool, h,
      GmailService.sendEmail, recordAdapter,
      ProactiveAgent.createNotificationForAction]
  · intro h
    cases hfu : s.users.find? (fun u => decide (u.id = uid)) with
    | none =>
      simp [ProactiveAgent.emailAgentStep, ToolService.executeTool, h, hfu,
        HubSpotService.createContact, recordAdapter,
        ProactiveAgent.createNotificationForAction, NotificationService.create]
    | some u =>
      by_cases hg : strArg tc.arguments "email" = some u.email
      · simp [ProactiveAgent.emailAgentStep, ToolService.executeTool, h, hfu,
          hg, ProactiveAgent.createNotificationForAction,
          NotificationService.create]
      · simp [ProactiveAgent.emailAgentStep, ToolService.executeTool, h, hfu,
          hg, HubSpotService.createContact, recordAdapter,
          ProactiveAgent.createNotificationForAction, NotificationService.create]
  · intro h hv1 hv2
    simp [ProactiveAgent.emailAgentStep, ToolService.executeTool, h,
      CalendarService.createEvent, hv1, hv2, recordAdapter, freshGoogleId,
      ProactiveAgent.createNotificationForAction, NotificationService.create]
  · intro h
    simp [ProactiveAgent.emailAgentStep, ToolService.executeTool, h,
      HubSpotService.addContactNote, recordAdapter,
      ProactiveAgent.createNotificationForAction, NotificationService.create]
  · intro tid stS st t h htid hst hof hfind
    by_cases hc : stS = "COMPLETED"
    · subst hc
      simp [ProactiveAgent.emailAgentStep, ToolService.executeTool, h, htid,
        hst, hof, hfind, ProactiveAgent.createNotificationForAction,
        NotificationService.create]
    · simp [ProactiveAgent.emailAgentStep, ToolService.executeTool, h, htid,
        hst, hof, hfind, hc, ProactiveAgent.createNotificationForAction,
        NotificationService.create]
  · intro h
    simp [ProactiveAgent.emailAgentStep, ToolService.executeTool, h,
      ProactiveAgent.createNotificationForAction]
  · intro tt h htt
    simp [ProactiveAgent.emailAgentStep, ToolService.executeTool, h, htt,
      ProactiveAgent.createNotificationForAction]
  · intro h
    simp [ProactiveAgent.emailAgentStep, ToolService.executeTool, h,
      RAGService.searchContacts, ProactiveAgent.createNotificationForAction]
  · unfold ProactiveAgent.createErrorNotification
    split_ifs <;> simp [NotificationService.create]

/-- Witness for C8 (amended), at one concrete call of every enumerated kind
and one error. -/
theorem notification_per_tool_outcome_witness :
    ((ProactiveAgent.emailAgentStep "u1" wEd wState wSendCall).1.notifications
        = wState.notifications) ∧
    ((ProactiveAgent.emailAgentStep "u1" wEd wState
        wContactCall).1.notifications.length =
      wState.notifications.length + 1) ∧
    ((ProactiveAgent.emailAgentStep "u1" wEd wState
        wEventCall).1.notifications.length =
        wState.notifications.length + 1 ∧
      (ProactiveAgent.emailAgentStep "u1" wEd wState
        wEventCall).1.agentDispatches.length =
        wState.agentDispatches.length + 1) ∧
    ((ProactiveAgent.emailAgentStep "u1" wEd wState
        wNoteCall).1.notifications.length =
      wState.notifications.length + 1) ∧
    ((ProactiveAgent.emailAgentStep "u1" wEd wStateTask
        wUpdateCall).1.notifications.length =
      wStateTask.notifications.length + 1) ∧
    ((ProactiveAgent.emailAgentStep "u1" wEd wState
        wTaskCall).1.notifications = wState.notifications ∧
      (ProactiveAgent.emailAgentStep "u1" wEd wState wTaskCall).1.tasks.length
        = wState.tasks.length + 1) ∧
    ((ProactiveAgent.emailAgentStep "u1" wEd wState
        wSaveCall).1.notifications = wState.notifications ∧
      (ProactiveAgent.emailAgentStep "u1" wEd wState
        wSaveCall).1.instructions.length = wState.instructions.length + 1) ∧
    ((ProactiveAgent.emailAgentStep "u1" wEd wState
        wSearchCall).1.notifications = wState.notifications) ∧
    ((ProactiveAgent.createErrorNotification "u1" "search_contacts"
        "rate limited" wEd wState).notifications.length =
      wState.notifications.length + 1) := by
  have hSend := notification_per_tool_outcome "u1" wEd wState wSendCall "x" "e"
  exact ⟨hSend.1 rfl |>.1,
    (notification_per_tool_outcome "u1" wEd wState wContactCall "x"
      "e").2.1 rfl,
    (notification_per_tool_outcome "u1" wEd wState wEventCall "x"
      "e").2.2.1 rfl (by decide) (by decide),
    (notification_per_tool_outcome "u1" wEd wState wNoteCall "x"
      "e").2.2.2.1 rfl,
    (notification_per_tool_outcome "u1" wEd wStateTask wUpdateCall "x"
      "e").2.2.2.2.1 "t1" "COMPLETED" TaskStatus.COMPLETED wDoneTask rfl rfl
      rfl (by decide) (by decide),
    (notification_per_tool_outcome "u1" wEd wState wTaskCall "x"
      "e").2.2.2.2.2.1 rfl,
    (notification_per_tool_outcome "u1" wEd wState wSaveCall "x"
      "e").2.2.2.2.2.2.1 TriggerType.NEW_EMAIL rfl (by decide),
    (notification_per_tool_outcome "u1" wEd wState wSearchCall "x"
      "e").2.2.2.2.2.2.2.1 rfl,
    (notification_per_tool_outcome "u1" wEd wState wSearchCall
      "search_contacts" "rate limited").2.2.2.2.2.2.2.2⟩

/-- C9 counterexample: the update_task_status tool performs a bare update
with no transition check: it moves a task from the terminal COMPLETED status
back to PENDING and reports success, so status is not monotonic and terminal
states are not absorbing. -/
theorem task_status_regression_allowed :
    wDoneTask.status = TaskStatus.COMPLETED ∧
    ((ToolService.executeTool "u1" wStateTask "update_task_status"
        [("taskId", AVal.s "t1"), ("status", AVal.s "PENDING")]).1.tasks.map
      (fun t => t.status)) = [TaskStatus.PENDING] ∧
    (ToolService.executeTool "u1" wStateTask "update_task_status"
        [("taskId", AVal.s "t1"), ("status", AVal.s "PENDING")]).2.isOk
      = true := by
  decide

/-- Updated task list search commutes with an id-preserving update. -/
theorem find?_map_updateTask (l : List TaskRec) (tid : String)
    (upd : TaskRec → TaskRec) (hupd : ∀ x, (upd x).id = x.id) :
    (l.map upd).find? (fun x => decide (x.id = tid)) =
      (l.find? (fun x => decide (x.id = tid))).map upd := by
  induction l with
  | nil => rfl
  | cons a l ih =>
    by_cases h : a.id = tid
    · rw [List.map_cons,
        List.find?_cons_of_pos _ (by simpa [hupd] using decide_eq_true h),
        List.find?_cons_of_pos _ (by simpa using decide_eq_true h)]
      rfl
    · rw [List.map_cons,
        List.find?_cons_of_neg _ (by simpa [hupd] using h),
        List.find?_cons_of_neg _ (by simpa using h)]
      exact ih

/-- C9 (amended): update_task_status applies whatever enum status the
arguments request, with no transition restriction: for any task found by id,
the stored task afterwards carries exactly the requested status (even moving
backwards or out of a terminal status) and the call reports success. -/
theorem update_task_status_unrestricted :
    ∀ (s : SysState) (uid tid stS : String) (args : Args) (st : TaskStatus)
      (t : TaskRec),
    strArg args "taskId" = some tid →
    strArg args "status" = some stS →
    TaskStatus.ofString? stS = some st →
    s.tasks.find? (fun x => decide (x.id = tid)) = some t →
    ∃ t',
      (ToolService.executeTool uid s "update_task_status" args).1.tasks.find?
          (fun x => decide (x.id = tid)) = some t' ∧
      t'.status = st ∧
      (ToolService.executeTool uid s "update_task_status" args).2.isOk
        = true := by
  intro s uid tid stS args st t htid hst hof hfind
  have hp := List.find?_some hfind
  have htid' : t.id = tid := by simpa using hp
  unfold ToolService.executeTool
  simp only [String.reduceEq, reduceIte, htid, hst, Option.getD_some, hfind,
    hof]
  refine ⟨{ t with
      status := st,
      result := match strArg args "result" with
                | some v => some v | none => t.result,
      error := match strArg args "error" with
               | some v => some v | none => t.error,
      completedAt := if st = TaskStatus.COMPLETED then some s.now
        else t.completedAt }, ?_, rfl, rfl⟩
  rw [find?_map_updateTask _ tid _
    (fun x => by by_cases hx : x.id = tid <;> simp [hx, htid']), hfind,
    Option.map_some']
  simp [hp]

/-- Witness for C9 (amended): moving the completed fixture task to
IN_PROGRESS succeeds and stores exactly that status. -/
theorem update_task_status_unrestricted_witness :
    ∃ t',
      (ToolService.executeTool "u1" wStateTask "update_task_status"
          [("taskId", AVal.s "t1"),
           ("status", AVal.s "IN_PROGRESS")]).1.tasks.find?
          (fun x => decide (x.id = "t1")) = some t' ∧
      t'.status = TaskStatus.IN_PROGRESS ∧
      (ToolService.executeTool "u1" wStateTask "update_task_status"
          [("taskId", AVal.s "t1"),
           ("status", AVal.s "IN_PROGRESS")]).2.isOk = true :=
  update_task_status_unrestricted wStateTask "u1" "t1" "IN_PROGRESS"
    [("taskId", AVal.s "t1"), ("status", AVal.s "IN_PROGRESS")]
    TaskStatus.IN_PROGRESS wDoneTask (by decide) (by decide) (by decide)
    (by decide)

/-! Email-table preservation: nothing reachable from a dispatched agent run
writes the Email table, which is what makes the detector dedup check sound
across the run it dispatches. -/

/-- Calendar event creation, throwing or not, never writes the Email
table. -/
theorem createEvent_emails (uid : String) (t a b : Option String)
    (s : SysState) :
    (CalendarService.createEvent uid t a b s).1.emails = s.emails := by
  unfold CalendarService.createEvent
  dsimp only
  split <;> rfl

/-- Tool execution never writes the Email table. -/
theorem executeTool_emails (uid : String) (s : SysState) (name : String)
    (args : Args) :
    (ToolService.executeTool uid s name args).1.emails = s.emails := by
  unfold ToolService.executeTool
  by_cases h1 : name = "search_emails"
  · rw [if_pos h1]
    try dsimp only
    repeat' split
    all_goals
      first
      | rfl
      | simp_all [GmailService.sendEmail, GmailService.searchEmails,
          HubSpotService.createContact, HubSpotService.addContactNote,
          createEvent_emails,
          CalendarService.findAvailableTimeSlots, recordAdapter]
  rw [if_neg h1]
  by_cases h2 : name = "get_recent_emails"
  · rw [if_pos h2]
    try dsimp only
    repeat' split
    all_goals
      first
      | rfl
      | simp_all [GmailService.sendEmail, GmailService.searchEmails,
          HubSpotService.createContact, HubSpotService.addContactNote,
          createEvent_emails,
          CalendarService.findAvailableTimeSlots, recordAdapter]
  rw [if_neg h2]
  by_cases h3 : name = "search_contacts"
  · rw [if_pos h3]
    try dsimp only
    repeat' split
    all_goals
      first
      | rfl
      | simp_all [GmailService.sendEmail, GmailService.searchEmails,
          HubSpotService.createContact, HubSpotService.addContactNote,
          createEvent_emails,
          CalendarService.findAvailableTimeSlots, recordAdapter]
  rw [if_neg h3]
  by_cases h4 : name = "search_contact_notes"
  · rw [if_pos h4]
    try dsimp only
    repeat' split
    all_goals
      first
      | rfl
      | simp_all [GmailService.sendEmail, GmailService.searchEmails,
          HubSpotService.createContact, HubSpotService.addContactNote,
          createEvent_emails,
          CalendarService.findAvailableTimeSlots, recordAdapter]
  rw [if_neg h4]
  by_cases h5 : name = "send_email"
  · rw [if_pos h5]
    try dsimp only
    repeat' split
    all_goals
      first
      | rfl
      | simp_all [GmailService.sendEmail, GmailService.searchEmails,
          HubSpotService.createContact, HubSpotService.addContactNote,
          createEvent_emails,
          CalendarService.findAvailableTimeSlots, recordAdapter]
  rw [if_neg h5]
  by_cases h6 : name = "create_contact"
  · rw [if_pos h6]
    try dsimp only
    repeat' split
    all_goals
      first
      | rfl
      | simp_all [GmailService.sendEmail, GmailService.searchEmails,
          HubSpotService.createContact, HubSpotService.addContactNote,
          createEvent_emails,
          CalendarService.findAvailableTimeSlots, recordAdapter]
  rw [if_neg h6]
  by_cases h7 : name = "add_contact_note"
  · rw [if_pos h7]
    try dsimp only
    repeat' split
    all_goals
      first
      | rfl
      | simp_all [GmailService.sendEmail, GmailService.searchEmails,
          HubSpotService.createContact, HubSpotService.addContactNote,
          createEvent_emails,
          CalendarService.findAvailableTimeSlots, recordAdapter]
  rw [if_neg h7]
  by_cases h8 : name = "create_calendar_event"
  · rw [if_pos h8]
    try dsimp only
    repeat' split
    all_goals
      first
      | rfl
      | simp_all [GmailService.sendEmail, GmailService.searchEmails,
          HubSpotService.createContact, HubSpotService.addContactNote,
          createEvent_emails,
          CalendarService.findAvailableTimeSlots, recordAdapter]
  rw [if_neg h8]
  by_cases h9 : name = "find_available_time_slots"
  · rw [if_pos h9]
    try dsimp only
    repeat' split
    all_goals
      first
      | rfl
      | simp_all [GmailService.sendEmail, GmailService.searchEmails,
          HubSpotService.createContact, HubSpotService.addContactNote,
          createEvent_emails,
          CalendarService.findAvailableTimeSlots, recordAdapter]
  rw [if_neg h9]
  by_cases h10 : name = "get_upcoming_events"
  · rw [if_pos h10]
    try dsimp only
    repeat' split
    all_goals
      first
      | rfl
      | simp_all [GmailService.sendEmail, GmailService.searchEmails,
          HubSpotService.createContact, HubSpotService.addContactNote,
          createEvent_emails,
          CalendarService.findAvailableTimeSlots, recordAdapter]
  rw [if_neg h10]
  by_cases h11 : name = "search_calendar_events"
  · rw [if_pos h11]
    try dsimp only
    repeat' split
    all_goals
      first
      | rfl
      | simp_all [GmailService.sendEmail, GmailService.searchEmails,
          HubSpotService.createContact, HubSpotService.addContactNote,
          createEvent_emails,
          CalendarService.findAvailableTimeSlots, recordAdapter]
  rw [if_neg h11]
  by_cases h12 : name = "create_task"
  · rw [if_pos h12]
    try dsimp only
    repeat' split
    all_goals
      first
      | rfl
      | simp_all [GmailService.sendEmail, GmailService.searchEmails,
          HubSpotService.createContact, HubSpotService.addContactNote,
          createEvent_emails,
          CalendarService.findAvailableTimeSlots, recordAdapter]
  rw [if_neg h12]
  by_cases h13 : name = "update_task_status"
  · rw [if_pos h13]
    try dsimp only
    repeat' split
    all_goals
      first
      | rfl
      | simp_all [GmailService.sendEmail, GmailService.searchEmails,
          HubSpotService.createContact, HubSpotService.addContactNote,
          createEvent_emails,
          CalendarService.findAvailableTimeSlots, recordAdapter]
  rw [if_neg h13]
  by_cases h14 : name = "save_ongoing_instruction"
  · rw [if_pos h14]
    try dsimp only
    repeat' split
    all_goals
      first
      | rfl
      | simp_all [GmailService.sendEmail, GmailService.searchEmails,
          HubSpotService.createContact, HubSpotService.addContactNote,
          createEvent_emails,
          CalendarService.findAvailableTimeSlots, recordAdapter]
  rw [if_neg h14]
  by_cases h15 : name = "list_ongoing_instructions"
  · rw [if_pos h15]
    try dsimp only
    repeat' split
    all_goals
      first
      | rfl
      | simp_all [GmailService.sendEmail, GmailService.searchEmails,
          HubSpotService.createContact, HubSpotService.addContactNote,
          createEvent_emails,
          CalendarService.findAvailableTimeSlots, recordAdapter]
  rw [if_neg h15]

/-- Success notifications never write the Email table. -/
theorem createNotificationForAction_emails (uid n : String) (args : Args)
    (r : RVal) (ed : EmailData) (s : SysState) :
    (ProactiveAgent.createNotificationForAction uid n args r ed
      s).emails = s.emails := by
  unfold ProactiveAgent.createNotificationForAction
  split_ifs <;> simp [NotificationService.create]

/-- Error notifications never write the Email table. -/
theorem createErrorNotification_emails (uid n e : String) (ed : EmailData)
    (s : SysState) :
    (ProactiveAgent.createErrorNotification uid n e ed s).emails =
      s.emails := by
  unfold ProactiveAgent.createErrorNotification
  split_ifs <;> simp [NotificationService.create]

/-- One email-agent step never writes the Email table. -/
theorem emailAgentStep_emails (uid : String) (ed : EmailData) (s : SysState)
    (tc : ToolCallReq) :
    ((ProactiveAgent.emailAgentStep uid ed s tc).1).emails = s.emails := by
  unfold ProactiveAgent.emailAgentStep
  cases h2 : (ToolService.executeTool uid s tc.name tc.arguments).2 with
  | ok r =>
    simp only [h2, createNotificationForAction_emails]
    exact executeTool_emails uid s tc.name tc.arguments
  | err e =>
    simp only [h2, createErrorNotification_emails]
    exact executeTool_emails uid s tc.name tc.arguments

/-- A round of a step that preserves the Email table preserves it. -/
theorem runRound_emails (exec : ExecStep SysState)
    (hexec : ∀ s tc, ((exec s tc).1).emails = s.emails) :
    ∀ (calls : List ToolCallReq) (s : SysState),
    ((runRound exec s calls).1).emails = s.emails := by
  intro calls
  induction calls with
  | nil => intro s; rfl
  | cons c rest ih =>
    intro s
    by_cases hc : c.type = "function"
    · simp only [runRound, hc, reduceIte]
      rw [ih]
      exact hexec s c
    · simp only [runRound, hc, reduceIte]
      exact ih s

/-- The whole loop of a step that preserves the Email table preserves it. -/
theorem runLoop_emails (oracle : Oracle) (exec : ExecStep SysState)
    (hexec : ∀ s tc, ((exec s tc).1).emails = s.emails) :
    ∀ (b : Nat) (s : SysState) (hist : List ChatMsg) (cur : AssistantMsg),
    ((runLoop oracle exec b s hist cur).state).emails = s.emails := by
  intro b
  induction b with
  | zero => intro s hist cur; rfl
  | succ b ih =>
    intro s hist cur
    by_cases h : cur.tool_calls.isEmpty
    · rw [runLoop_succ_empty oracle exec b s hist cur h]
    · have h' : cur.tool_calls.isEmpty = false := by
        cases hc : cur.tool_calls.isEmpty with
        | false => rfl
        | true => exact absurd hc h
      rw [runLoop_succ_ne oracle exec b s hist cur h']
      rw [ih]
      exact runRound_emails exec hexec cur.tool_calls s

/-- A dispatched processNewEmail run never writes the Email table. -/
theorem processNewEmail_emails (oracle : Oracle) (s : SysState)
    (uid : String) (ed : EmailData) :
    ((ProactiveAgent.processNewEmail oracle s uid ed).1).emails =
      s.emails := by
  unfold ProactiveAgent.processNewEmail
  dsimp only
  repeat' split
  all_goals
    first
    | rfl
    | exact runLoop_emails oracle _ (emailAgentStep_emails uid ed) _ _ _ _

/-- Number of Email rows of a user carrying a given provider id. -/
def recordCount (s : SysState) (uid g : String) : Nat :=
  (s.emails.filter
    (fun e => decide (e.userId = uid) && decide (e.gmailId = g))).length

/-- Number of occurrences of an id in a dispatched-id list. -/
def countIds (l : List String) (g : String) : Nat :=
  (l.filter (fun x => decide (x = g))).length

/-- States with equal Email tables count records equally. -/
theorem recordCount_congr {s1 s2 : SysState} (h : s1.emails = s2.emails)
    (uid g : String) : recordCount s1 uid g = recordCount s2 uid g := by
  simp [recordCount, h]

/-- Occurrences of an id distribute over appended dispatch lists. -/
theorem countIds_append (a b : List String) (g : String) :
    countIds (a ++ b) g = countIds a g + countIds b g := by
  simp [countIds, List.filter_append]

/-- Occurrence count of an id under a newly dispatched head. -/
theorem countIds_cons (x : String) (l : List String) (g : String) :
    countIds (x :: l) g = (if x = g then 1 else 0) + countIds l g := by
  by_cases h : x = g <;> simp [countIds, h, Nat.add_comm]

/-- Persisting one fetched message adds one record for its own id and none
for any other id. -/
theorem recordCount_persist (s : SysState) (user : User) (m : GmailMessage)
    (g : String) :
    recordCount { s with
        emails := s.emails ++ [BackgroundPoller.mkStoredEmail user m] }
      user.id g =
      recordCount s user.id g + (if m.id = g then 1 else 0) := by
  by_cases hm : m.id = g <;>
    simp [recordCount, List.filter_append, BackgroundPoller.mkStoredEmail, hm]

/-- A failed existence check means the user holds no record for that id. -/
theorem find?_none_recordCount_zero (s : SysState) (user : User) (g : String)
    (h : s.emails.find?
        (fun e => decide (e.userId = user.id) && decide (e.gmailId = g))
      = none) :
    recordCount s user.id g = 0 := by
  rw [recordCount, List.filter_eq_nil_iff.mpr, List.length_nil]
  intro a ha
  simpa using List.find?_eq_none.mp h a ha

/-- Core dedup invariant of the per-message poll loop, for one provider id:
the loop leaves at most max(initial, 1) records, dispatches at most once,
does nothing for an id that already has a record, and never dispatches an id
it did not persist. -/
theorem pollEmailsLoop_dedup (oracle : Oracle) (user : User) (g : String) :
    ∀ (ms : List GmailMessage) (s : SysState),
    recordCount (BackgroundPoller.pollEmailsLoop oracle user ms s).1 user.id g
        ≤ max (recordCount s user.id g) 1 ∧
    countIds (BackgroundPoller.pollEmailsLoop oracle user ms s).2 g ≤ 1 ∧
    (0 < recordCount s user.id g →
      recordCount (BackgroundPoller.pollEmailsLoop oracle user ms s).1
          user.id g = recordCount s user.id g ∧
      countIds (BackgroundPoller.pollEmailsLoop oracle user ms s).2 g = 0) ∧
    countIds (BackgroundPoller.pollEmailsLoop oracle user ms s).2 g ≤
      recordCount (BackgroundPoller.pollEmailsLoop oracle user ms s).1
        user.id g := by
  intro ms
  induction ms with
  | nil =>
    intro s
    refine ⟨Nat.le_max_left _ _, by simp [BackgroundPoller.pollEmailsLoop,
      countIds], fun _ => ⟨rfl, by simp [BackgroundPoller.pollEmailsLoop,
      countIds]⟩, by simp [BackgroundPoller.pollEmailsLoop, countIds]⟩
  | cons m rest ih =>
    intro s
    cases hf : s.emails.find?
        (fun e => decide (e.userId = user.id) && decide (e.gmailId = m.id))
        with
    | some e =>
      simp only [BackgroundPoller.pollEmailsLoop, hf]
      exact ih s
    | none =>
      simp only [BackgroundPoller.pollEmailsLoop, hf]
      have hEm := processNewEmail_emails oracle
        { s with emails := s.emails ++ [BackgroundPoller.mkStoredEmail user m] }
        user.id (BackgroundPoller.edOf m)
      have hc2 : recordCount
          ((ProactiveAgent.processNewEmail oracle
            { s with emails := s.emails ++
              [BackgroundPoller.mkStoredEmail user m] }
            user.id (BackgroundPoller.edOf m)).1) user.id g =
          recordCount s user.id g + (if m.id = g then 1 else 0) := by
        rw [recordCount_congr hEm, recordCount_persist]
      have ihq := ih ((ProactiveAgent.processNewEmail oracle
        { s with emails := s.emails ++
          [BackgroundPoller.mkStoredEmail user m] }
        user.id (BackgroundPoller.edOf m)).1)
      by_cases hm : m.id = g
      · subst hm
        have hrec0 : recordCount s user.id m.id = 0 :=
          find?_none_recordCount_zero s user m.id hf
        rw [hrec0] at hc2
        simp only [if_pos rfl] at hc2
        have hq3 := ihq.2.2.1 (by rw [hc2]; exact Nat.one_pos)
        refine ⟨?_, ?_, ?_, ?_⟩
        · rw [hq3.1, hc2, hrec0]
          exact Nat.le_max_right _ _
        · rw [countIds_cons, hq3.2]
          simp
        · intro h0
          rw [hrec0] at h0
          exact absurd h0 (Nat.lt_irrefl 0)
        · rw [countIds_cons, hq3.2, hq3.1, hc2]
          simp
      · rw [if_neg hm] at hc2
        rw [Nat.add_zero] at hc2
        have hcons : countIds (m.id ::
            (BackgroundPoller.pollEmailsLoop oracle user rest
              ((ProactiveAgent.processNewEmail oracle
                { s with emails := s.emails ++
                  [BackgroundPoller.mkStoredEmail user m] }
                user.id (BackgroundPoller.edOf m)).1)).2) g =
            countIds ((BackgroundPoller.pollEmailsLoop oracle user rest
              ((ProactiveAgent.processNewEmail oracle
                { s with emails := s.emails ++
                  [BackgroundPoller.mkStoredEmail user m] }
                user.id (BackgroundPoller.edOf m)).1)).2) g := by
          rw [countIds_cons, if_neg hm, Nat.zero_add]
        refine ⟨?_, ?_, ?_, ?_⟩
        · calc _ ≤ max (recordCount ((ProactiveAgent.processNewEmail oracle
              { s with emails := s.emails ++
                [BackgroundPoller.mkStoredEmail user m] }
              user.id (BackgroundPoller.edOf m)).1) user.id g) 1 := ihq.1
            _ = max (recordCount s user.id g) 1 := by rw [hc2]
        · rw [hcons]
          exact ihq.2.1
        · intro h0
          have hq3 := ihq.2.2.1 (by rw [hc2]; exact h0)
          exact ⟨by rw [hq3.1, hc2], by rw [hcons]; exact hq3.2⟩
        · rw [hcons]
          exact ihq.2.2.2

/-- The dedup invariant lifted to pollUserEmails: the guard branches touch
nothing, and the message loop keeps the invariant. -/
theorem pollUserEmails_dedup (oracle : Oracle) (user : User)
    (newEmails : List GmailMessage) (s : SysState) (g : String) :
    recordCount (BackgroundPoller.pollUserEmails oracle user newEmails s).1
        user.id g ≤ max (recordCount s user.id g) 1 ∧
    countIds (BackgroundPoller.pollUserEmails oracle user newEmails s).2 g
        ≤ 1 ∧
    (0 < recordCount s user.id g →
      recordCount (BackgroundPoller.pollUserEmails oracle user newEmails s).1
          user.id g = recordCount s user.id g ∧
      countIds (BackgroundPoller.pollUserEmails oracle user newEmails s).2 g
        = 0) ∧
    countIds (BackgroundPoller.pollUserEmails oracle user newEmails s).2 g ≤
      recordCount (BackgroundPoller.pollUserEmails oracle user newEmails s).1
        user.id g := by
  unfold BackgroundPoller.pollUserEmails
  dsimp only
  split
  · exact ⟨Nat.le_max_left _ _, by simp [countIds],
      fun _ => ⟨rfl, by simp [countIds]⟩, by simp [countIds]⟩
  · split
    · exact ⟨Nat.le_max_left _ _, by simp [countIds],
        fun _ => ⟨rfl, by simp [countIds]⟩, by simp [countIds]⟩
    · split
      · exact ⟨Nat.le_max_left _ _, by simp [countIds],
          fun _ => ⟨rfl, by simp [countIds]⟩, by simp [countIds]⟩
      · exact pollEmailsLoop_dedup oracle user g newEmails s

/-- C1: the email detector is idempotent per provider id. Starting from a
store holding at most one Email row for a given (user, gmailId), running
pollUserEmails twice over the same fetched external state leaves at most one
materialized row for that id, and across both runs at most one agent run is
dispatched for it: an already-seen id is skipped before both the insert and
the dispatch. -/
theorem detector_idempotent :
    ∀ (oracle : Oracle) (user : User) (newEmails : List GmailMessage)
      (s : SysState) (g : String),
    recordCount s user.id g ≤ 1 →
    recordCount (BackgroundPoller.pollUserEmails oracle user newEmails
        (BackgroundPoller.pollUserEmails oracle user newEmails s).1).1
      user.id g ≤ 1 ∧
    countIds ((BackgroundPoller.pollUserEmails oracle user newEmails s).2 ++
        (BackgroundPoller.pollUserEmails oracle user newEmails
          (BackgroundPoller.pollUserEmails oracle user newEmails s).1).2) g
      ≤ 1 := by
  intro oracle user newEmails s g hs
  have h1 := pollUserEmails_dedup oracle user newEmails s g
  have h2 := pollUserEmails_dedup oracle user newEmails
    (BackgroundPoller.pollUserEmails oracle user newEmails s).1 g
  have hs1 : recordCount
      (BackgroundPoller.pollUserEmails oracle user newEmails s).1 user.id g
        ≤ 1 :=
    Nat.le_trans h1.1 (Nat.max_le.mpr ⟨hs, Nat.le_refl 1⟩)
  constructor
  · exact Nat.le_trans h2.1 (Nat.max_le.mpr ⟨hs1, Nat.le_refl 1⟩)
  · rw [countIds_append]
    by_cases hd :
      countIds (BackgroundPoller.pollUserEmails oracle user newEmails s).2 g
        = 0
    · rw [hd, Nat.zero_add]
      exact h2.2.1
    · have hrecpos : 0 < recordCount
          (BackgroundPoller.pollUserEmails oracle user newEmails s).1
          user.id g :=
        Nat.lt_of_lt_of_le (Nat.pos_of_ne_zero hd) h1.2.2.2
      rw [(h2.2.2.1 hrecpos).2, Nat.add_zero]
      exact h1.2.1

/-- Gmail message fetched by the poller in the C1 witness. -/
def wMsg : GmailMessage :=
  ⟨"g-1", "alice@x.com", "Hello", some "Body text", some "snippet", 999⟩

/-- Witness for C1: polling the fixture message twice stores one row and
dispatches once; the concrete dispatch lists evaluate to one dispatch on the
first run and none on the second. -/
theorem detector_idempotent_witness :
    recordCount wState "u1" "g-1" ≤ 1 ∧
    (BackgroundPoller.pollUserEmails wOracleQuiet wUser [wMsg] wState).2 =
      ["g-1"] ∧
    (BackgroundPoller.pollUserEmails wOracleQuiet wUser [wMsg]
      (BackgroundPoller.pollUserEmails wOracleQuiet wUser [wMsg] wState).1).2
      = [] ∧
    (recordCount (BackgroundPoller.pollUserEmails wOracleQuiet wUser [wMsg]
        (BackgroundPoller.pollUserEmails wOracleQuiet wUser [wMsg]
          wState).1).1 wUser.id "g-1" ≤ 1 ∧
      countIds
        ((BackgroundPoller.pollUserEmails wOracleQuiet wUser [wMsg] wState).2
          ++ (BackgroundPoller.pollUserEmails wOracleQuiet wUser [wMsg]
            (BackgroundPoller.pollUserEmails wOracleQuiet wUser [wMsg]
              wState).1).2) "g-1" ≤ 1) :=
  ⟨by decide, by decide, by decide,
    detector_idempotent wOracleQuiet wUser [wMsg] wState "g-1" (by decide)⟩

end App
